import Mathlib

/-!
Verification of the AI playlist-generation pipeline of the `spotify_ai`
repository against its natural-language specification.

The development shallowly embeds the generation service
(`src/services/ai/generation.ts`) and the LLM adapter's JSON post-processing
(`src/services/ai/openai.ts`): JavaScript numbers that can be `NaN` or
infinite are modelled by `JSNum`, fields that can be absent at runtime by
`Option`, the `localStorage`-backed preference store by explicit state
passing, and the network calls (LLM, catalog search) by explicitly
quantified inputs / oracles.  Floating-point arithmetic is modelled by exact
rationals (the spec states the same real-number formulas).
-/

namespace SpotifyAI

/-- A JavaScript `number` as it matters to this code: `NaN`, the two
infinities, or a finite value (modelled as an exact rational). -/
inductive JSNum where
  | nan : JSNum
  | inf : JSNum
  | ninf : JSNum
  | num : ℚ → JSNum
  deriving DecidableEq

/-- `typeof x === 'number' && !isNaN(x)` for a possibly-missing field:
true for finite numbers and for the infinities, false for `NaN` and for a
missing (`undefined`) field. -/
def jsIsValidNumber : Option JSNum → Bool
  | some JSNum.nan => false
  | some _ => true
  | none => false

/-- `Math.max(0, Math.min(100, x))` applied when `jsIsValidNumber` holds,
otherwise the default `d`.  This is the validate-and-clamp pattern of
`generatePlaylist` step 7 (`generation.ts:398-404`).  `Infinity` clamps to
100 and `-Infinity` to 0, exactly as the JS `Math.min`/`Math.max` chain
does. -/
def jsClampOr (x : Option JSNum) (d : ℚ) : ℚ :=
  match x with
  | some (JSNum.num q) => max 0 (min 100 q)
  | some JSNum.inf => 100
  | some JSNum.ninf => 0
  | some JSNum.nan => d
  | none => d

/-- `jsIsValidNumber x ? x : d` — the *unclamped* defaulting used by the
final validation pass (`generation.ts:504-510`): a valid number (including
an infinity) passes through untouched, `NaN`/missing becomes `d`. -/
def jsValidOr (x : Option JSNum) (d : ℚ) : JSNum :=
  match x with
  | some JSNum.nan => JSNum.num d
  | none => JSNum.num d
  | some v => v

/-- JS addition on `JSNum` (as needed for `(tasteScore + moodScore)` in the
final validation pass; `NaN` propagates, `Infinity + -Infinity = NaN`). -/
def jsAdd : JSNum → JSNum → JSNum
  | JSNum.nan, _ => JSNum.nan
  | _, JSNum.nan => JSNum.nan
  | JSNum.inf, JSNum.ninf => JSNum.nan
  | JSNum.ninf, JSNum.inf => JSNum.nan
  | JSNum.inf, _ => JSNum.inf
  | _, JSNum.inf => JSNum.inf
  | JSNum.ninf, _ => JSNum.ninf
  | _, JSNum.ninf => JSNum.ninf
  | JSNum.num a, JSNum.num b => JSNum.num (a + b)

/-- Division by 2 on `JSNum`. -/
def jsHalf : JSNum → JSNum
  | JSNum.nan => JSNum.nan
  | JSNum.inf => JSNum.inf
  | JSNum.ninf => JSNum.ninf
  | JSNum.num q => JSNum.num (q / 2)

/-- `Math.round` on a finite value: half-values round toward positive
infinity, i.e. `round x = ⌊x + 1/2⌋`. -/
def jsRound (x : ℚ) : ℤ := ⌊x + 1 / 2⌋

/-- `Math.round` lifted to `JSNum` (`NaN` and infinities are fixed points). -/
def jsRoundJ : JSNum → JSNum
  | JSNum.nan => JSNum.nan
  | JSNum.inf => JSNum.inf
  | JSNum.ninf => JSNum.ninf
  | JSNum.num q => JSNum.num ((jsRound q : ℤ) : ℚ)

/-- JS `a || d` for a possibly-missing string: the default is used when the
field is missing *or* the empty string (falsy). -/
def strOr (x : Option String) (d : String) : String :=
  match x with
  | some s => if s = "" then d else s
  | none => d

/-- JS `a || []` for a possibly-missing array: only a missing array is
replaced (an empty array is truthy in JS). -/
def listOr (x : Option (List String)) : List String := x.getD []

/-- `String.prototype.includes` on the underlying character lists. -/
def charsInclude : List Char → List Char → Bool
  | hay, needle =>
    needle.isPrefixOf hay ||
      match hay with
      | [] => false
      | _ :: t => charsInclude t needle

/-- JS `hay.includes(needle)` (substring containment). -/
def strIncludes (hay needle : String) : Bool :=
  charsInclude hay.toList needle.toList

/-- A catalog track as the pipeline consumes it: identifier, display name,
artist names, and the catalog's popularity field.  The Spotify popularity
field is a non-negative integer in 0–100 (spec §3 `CandidateTrack`); it may
be absent on some catalog objects. -/
structure Track where
  id : String
  name : String
  artists : List String
  popularity : Option ℕ
  deriving DecidableEq

/-- JS `track.popularity || 50` at the two `calculateOverallMatch` call
sites (`generation.ts:422,457`): the default 50 is used when the field is
missing *or equal to 0* (0 is falsy). -/
def popularityOrFifty (p : Option ℕ) : ℚ :=
  match p with
  | none => 50
  | some 0 => 50
  | some n => (n : ℚ)

/-- An emotion point of a `MoodAnalysis` (valence/energy pair). -/
structure EmotionPoint where
  valence : ℚ
  energy : ℚ
  deriving DecidableEq

/-- The `MoodAnalysis` record as the pipeline consumes it (all fields
present; partial parses are modelled separately by `MoodJson`). -/
structure MoodAnalysis where
  startPoint : EmotionPoint
  endPoint : EmotionPoint
  moodDescription : String
  reasoning : String
  suggestedGenres : List String
  playlistName : String
  shouldAskFollowUp : Bool
  followUpQuestion : Option String
  deriving DecidableEq

/-- The runtime shape of a `tasteAlignment` sub-object coming back from the
LLM: every field may be absent and the score may be any JS number. -/
structure RawAlign where
  score : Option JSNum
  matchedArtists : Option (List String)
  matchedGenres : Option (List String)
  explanation : Option String
  deriving DecidableEq

/-- The runtime shape of a `moodFit` sub-object coming back from the LLM. -/
structure RawMoodFit where
  score : Option JSNum
  explanation : Option String
  deriving DecidableEq

/-- The runtime shape of a `TrackRecommendation` object flowing through the
pipeline.  Fields typed `Option _` can be absent at runtime even though the
TypeScript interface declares them, because LLM output is parsed
permissively. -/
structure RawRec where
  spotifyId : Option String
  searchQuery : Option String
  reason : Option String
  targetEnergy : Option JSNum
  targetValence : Option JSNum
  position : Option JSNum
  reasoningBullets : Option (List String)
  tasteAlignment : Option RawAlign
  moodFit : Option RawMoodFit
  discoveryLevel : Option String
  overallMatch : Option JSNum
  deriving DecidableEq

/-- The ranked playlist returned by `rankAndExplainCandidates` as consumed
by `generatePlaylist` (tracks plus the two description strings). -/
structure RankedPlaylist where
  tracks : List RawRec
  playlistDescription : String
  moodJourney : String
  deriving DecidableEq

/-- `config.scoring.tasteWeight` from `ai.config.ts`
(`src/unnamed/part_000`, `defaultAIConfig.scoring`): 0.30.  `getAIConfig`
returns `defaultAIConfig` unchanged, so these are the values the
generation service runs with. -/
def tasteWeight : ℚ := 3 / 10

/-- `config.scoring.moodWeight` from `ai.config.ts`
(`defaultAIConfig.scoring`): 0.30. -/
def moodWeight : ℚ := 3 / 10

/-- `config.scoring.popularityWeight` from `ai.config.ts`
(`defaultAIConfig.scoring`): 0.25. -/
def popularityWeight : ℚ := 1 / 4

/-- `config.scoring.playFrequencyWeight` from `ai.config.ts`
(`defaultAIConfig.scoring`): 0.15. -/
def playFrequencyWeight : ℚ := 3 / 20

/-- `config.generation.defaultTrackCount` from `ai.config.ts`
(`defaultAIConfig.generation`): 10. -/
def defaultTrackCount : ℕ := 10

/-- `config.preferences.maxFavoriteGenres` from `ai.config.ts`
(`defaultAIConfig.preferences`): 10. -/
def maxFavoriteGenres : ℕ := 10

/-- `config.preferences.maxSavedVibes` from `ai.config.ts`
(`defaultAIConfig.preferences`): 5. -/
def maxSavedVibes : ℕ := 5

/-- `UserGenerationPreferences` (`generation.ts:82-101`). -/
structure UserGenerationPreferences where
  preferredVibes : List String
  favoriteGenres : List String
  energyPreference : ℚ
  valencePreference : ℚ
  discoveryLevel : String
  lastGeneratedAt : Option String
  totalGenerations : ℕ
  playlistLength : ℕ
  explicitContent : Bool
  lastPrompt : Option String
  lastMoodAnalysis : Option MoodAnalysis
  deriving DecidableEq

/-- The preference store: the `localStorage` slot under
`spotify_ai_generation_preferences`, holding either nothing or a full
preferences record (every write of `saveUserPreferences` stores the full
merged record). -/
def PrefStore := Option UserGenerationPreferences

/-- `getDefaultPreferences` (`generation.ts:124-133`); the default
discovery level is `config.generation.defaultDiscoveryLevel = 'balanced'`
from `ai.config.ts` (`defaultAIConfig.generation`). -/
def getDefaultPreferences : UserGenerationPreferences where
  preferredVibes := []
  favoriteGenres := []
  energyPreference := 6 / 10
  valencePreference := 5 / 10
  discoveryLevel := "balanced"
  lastGeneratedAt := none
  totalGenerations := 0
  playlistLength := defaultTrackCount
  explicitContent := true
  lastPrompt := none
  lastMoodAnalysis := none

/-- `loadUserPreferences` (`generation.ts:138-144`): a cached record is
merged over the defaults (`{...defaults, ...saved}`; since every save
stores a full record, the merge yields the saved record), otherwise the
defaults. -/
def loadUserPreferences (store : PrefStore) : UserGenerationPreferences :=
  store.getD getDefaultPreferences

/-- JS `Array.from(new Set(l))`: deduplicate keeping first occurrences. -/
def jsSetDedup (l : List String) : List String :=
  l.foldl (fun acc x => if x ∈ acc then acc else acc ++ [x]) []

/-- JS `l.slice(-n)`: the last `n` elements. -/
def sliceLast (l : List String) (n : ℕ) : List String :=
  l.drop (l.length - n)

/-- `updateVibePreferences` (`generation.ts:158-183`) as a store
transformer: it loads the current preferences, folds the new genres into
the favorites (capped), appends the mood description to the vibes list
(keeping the last `maxSavedVibes`), blends energy/valence 0.7 old / 0.3
new with clamping, and saves the merged record. -/
def updateVibePreferences (store : PrefStore) (moodAnalysis : MoodAnalysis)
    (genres : List String) : PrefStore :=
  let current := loadUserPreferences store
  let updatedGenres := (jsSetDedup (genres ++ current.favoriteGenres)).take maxFavoriteGenres
  let updatedVibes :=
    if moodAnalysis.moodDescription ∈ current.preferredVibes then
      current.preferredVibes
    else
      sliceLast (current.preferredVibes ++ [moodAnalysis.moodDescription]) maxSavedVibes
  let newEnergyPref := current.energyPreference * (7 / 10) + moodAnalysis.endPoint.energy * (3 / 10)
  let newValencePref := current.valencePreference * (7 / 10) + moodAnalysis.endPoint.valence * (3 / 10)
  some { current with
    preferredVibes := updatedVibes
    favoriteGenres := updatedGenres
    energyPreference := max 0 (min 1 newEnergyPref)
    valencePreference := max (-1) (min 1 newValencePref) }

/-- `getUserContext`'s time-of-day bucketing (`generation.ts:192-195`):
`timeOfDay` starts as `'morning'` and is overridden by the three guarded
assignments. -/
def timeOfDay (hour : ℕ) : String :=
  if 12 ≤ hour ∧ hour < 17 then "afternoon"
  else if 17 ≤ hour ∧ hour < 21 then "evening"
  else if 21 ≤ hour ∨ hour < 6 then "night"
  else "morning"

/-- The play-frequency loop of `calculateOverallMatch`
(`generation.ts:283-305`): walk the recently-played strings; an entry
containing the (lowercased) track name yields 100 immediately; otherwise an
entry containing an artist name raises the accumulator to 60. -/
def playFreqLoop (trackLower : String) (artistsLower : List String) :
    List String → ℚ → ℚ
  | [], acc => acc
  | r :: rest, acc =>
    let recentLower := r.toLower
    if strIncludes recentLower trackLower then 100
    else
      playFreqLoop trackLower artistsLower rest
        (if artistsLower.any (fun a => strIncludes recentLower a) then max acc 60 else acc)

/-- `calculateOverallMatch` (`generation.ts:270-316`): popularity capped at
100, play-frequency from the loop above (0 when the recent-play list is
empty), then the rounded weighted sum. -/
def calculateOverallMatch (tasteScore moodScore : ℚ) (popularity : ℚ)
    (trackName : String) (artistNames : List String)
    (recentlyPlayed : List String) : ℤ :=
  let popularityScore := min 100 popularity
  let playFrequencyScore :=
    playFreqLoop trackName.toLower (artistNames.map String.toLower) recentlyPlayed 0
  jsRound (tasteScore * tasteWeight + moodScore * moodWeight +
    popularityScore * popularityWeight + playFrequencyScore * playFrequencyWeight)

/-- JS `Map.set` on an insertion-ordered association list: overwrite in
place if the key exists, else append. -/
def mapSet {α : Type} (m : List (String × α)) (k : String) (v : α) :
    List (String × α) :=
  if m.any (fun p => p.1 = k) then
    m.map (fun p => if p.1 = k then (k, v) else p)
  else
    m ++ [(k, v)]

/-- JS `Map.get` (first — and only — entry with the key). -/
def mapGet {α : Type} (m : List (String × α)) (k : String) : Option α :=
  match m.find? (fun p => p.1 = k) with
  | some p => some p.2
  | none => none

/-- JS `Map.has`. -/
def mapHas {α : Type} (m : List (String × α)) (k : String) : Bool :=
  m.any (fun p => p.1 = k)

/-- The loop of `fetchCandidateTracksFromSpotify`
(`generation.ts:230-248`): each query is passed to `querySearch` (recorded
in the issued-search log); a successful search with a non-empty item list
stores the items under the query, an empty success stores nothing, and a
failed search (`none` from the oracle) stores the empty list. -/
def fetchLoop (search : String → Option (List Track)) :
    List String → List (String × List Track) → List String →
    List (String × List Track) × List String
  | [], results, issued => (results, issued)
  | q :: rest, results, issued =>
    let issued' := issued ++ [q]
    let results' :=
      match search q with
      | some items => if 0 < items.length then mapSet results q items else results
      | none => mapSet results q []
    fetchLoop search rest results' issued'

/-- `fetchCandidateTracksFromSpotify` of the canonical generation service
(`src/src/services/ai/generation.ts:224-251`).  Returns the query→tracks
map together with the log of queries for which a catalog search was
issued.  Note: this variant performs no query filtering. -/
def fetchCandidateTracksFromSpotify (search : String → Option (List Track))
    (searchQueries : List String) : List (String × List Track) × List String :=
  fetchLoop search searchQueries [] []

namespace AltGeneration

/-- The validity test of the alternate generation service's query filter
(`src/unnamed/part_003:230`): JS `q && q.trim() && q !== 'Unknown Track'`. -/
def isValidQuery (q : String) : Bool :=
  !(q = "") && !(q.trim = "") && !(q = "Unknown Track")

/-- The loop of the alternate `fetchCandidateTracksFromSpotify`
(`src/unnamed/part_003:233-258`): only filtered queries are searched; a
failed search stores nothing (unlike the canonical variant). -/
def fetchLoop (search : String → Option (List SpotifyAI.Track)) :
    List String → List (String × List SpotifyAI.Track) → List String →
    List (String × List SpotifyAI.Track) × List String
  | [], results, issued => (results, issued)
  | q :: rest, results, issued =>
    let issued' := issued ++ [q]
    let results' :=
      match search q with
      | some items =>
        if 0 < items.length then SpotifyAI.mapSet results q items else results
      | none => results
    fetchLoop search rest results' issued'

/-- `fetchCandidateTracksFromSpotify` of the alternate generation service
(`src/unnamed/part_003:223-262`): it filters out invalid queries before
searching. -/
def fetchCandidateTracksFromSpotify (search : String → Option (List SpotifyAI.Track))
    (searchQueries : List String) :
    List (String × List SpotifyAI.Track) × List String :=
  fetchLoop search (searchQueries.filter isValidQuery) [] []

end AltGeneration

/-- Step 7's track map (`generation.ts:383-385`): every fetched track is
inserted keyed by its identifier, so the map holds the deduplicated
candidate pool (last occurrence of an identifier wins). -/
def buildTrackMap (candidatesByQuery : List (String × List Track)) :
    List (String × Track) :=
  candidatesByQuery.foldl
    (fun m p => p.2.foldl (fun m' t => mapSet m' t.id t) m) []

/-- The validated recommendation built for an LLM-ranked track
(`generation.ts:396-436`): clamp-or-default the taste/mood scores, default
the text fields, and compute the overall match from the clamped scores. -/
def mkRankedRec (rec : RawRec) (track : Track) (recentlyPlayed : List String) :
    RawRec :=
  let tasteScore := jsClampOr (rec.tasteAlignment.bind RawAlign.score) 75
  let moodScore := jsClampOr (rec.moodFit.bind RawMoodFit.score) 80
  let overallMatch :=
    calculateOverallMatch tasteScore moodScore (popularityOrFifty track.popularity)
      track.name track.artists recentlyPlayed
  { rec with
    tasteAlignment := some {
      score := some (JSNum.num tasteScore)
      matchedArtists := some (listOr (rec.tasteAlignment.bind RawAlign.matchedArtists))
      matchedGenres := some (listOr (rec.tasteAlignment.bind RawAlign.matchedGenres))
      explanation := some (strOr (rec.tasteAlignment.bind RawAlign.explanation)
        "Matches your music style") }
    moodFit := some {
      score := some (JSNum.num moodScore)
      explanation := some (strOr (rec.moodFit.bind RawMoodFit.explanation)
        "Fits the requested vibe") }
    reasoningBullets := some
      (match rec.reasoningBullets with
       | some l => if 0 < l.length then l else [strOr rec.reason "Selected for this mood"]
       | none => [strOr rec.reason "Selected for this mood"])
    overallMatch := some (JSNum.num ((overallMatch : ℤ) : ℚ)) }

/-- Whether a ranked entry is selected by step 7
(`generation.ts:392`): `rec.spotifyId && trackMap.has(rec.spotifyId)` — an
empty identifier is falsy and skipped. -/
def selectedTrack (trackMap : List (String × Track)) (rec : RawRec) :
    Option Track :=
  match rec.spotifyId with
  | some sid => if sid = "" then none else mapGet trackMap sid
  | none => none

/-- Step 7's walk over the LLM ranking (`generation.ts:391-438`): each
entry whose identifier resolves in the track map contributes the resolved
track paired with its validated recommendation, in ranking order. -/
def step7Build (trackMap : List (String × Track)) (recentlyPlayed : List String) :
    List RawRec → List (Track × RawRec)
  | [] => []
  | rec :: rest =>
    match selectedTrack trackMap rec with
    | some track => (track, mkRankedRec rec track recentlyPlayed) ::
        step7Build trackMap recentlyPlayed rest
    | none => step7Build trackMap recentlyPlayed rest

/-- The default recommendation attached to a backfilled track
(`generation.ts:463-483`).  The source builds the search query with
`track.artists[0].name`, a partial access; it is modelled with `headD ""`
(no claim depends on the query text). -/
def mkBackfillRec (track : Track) (position : ℕ) (moodAnalysis : MoodAnalysis)
    (recentlyPlayed : List String) : RawRec :=
  let tasteScore : ℚ := 70
  let moodScore : ℚ := 75
  let overallMatch :=
    calculateOverallMatch tasteScore moodScore (popularityOrFifty track.popularity)
      track.name track.artists recentlyPlayed
  { spotifyId := some track.id
    searchQuery := some (track.name ++ " " ++ track.artists.headD "")
    reason := some "Additional track that fits the vibe"
    targetEnergy := some (JSNum.num moodAnalysis.endPoint.energy)
    targetValence := some (JSNum.num moodAnalysis.endPoint.valence)
    position := some (JSNum.num (position : ℚ))
    reasoningBullets := some ["Complements the playlist mood"]
    tasteAlignment := some {
      score := some (JSNum.num tasteScore)
      matchedArtists := some []
      matchedGenres := some []
      explanation := some "Good fit for the overall vibe" }
    moodFit := some {
      score := some (JSNum.num moodScore)
      explanation := some "Matches the playlist energy" }
    discoveryLevel := some "balanced"
    overallMatch := some (JSNum.num ((overallMatch : ℤ) : ℚ)) }

/-- The backfill loop (`generation.ts:446-485`): walk the candidate pool in
map order; any track whose identifier is not yet in the playlist is
appended (with a default recommendation) while the playlist is shorter than
the target length.  The `remainingIds` set of the source always equals the
identifier set of the accumulated track list, and the position counter
always equals its length plus one. -/
def backfillLoop (target : ℕ) (moodAnalysis : MoodAnalysis)
    (recentlyPlayed : List String) :
    List Track → List Track → List RawRec → List Track × List RawRec
  | [], tracks, recs => (tracks, recs)
  | t :: rest, tracks, recs =>
    if t.id ∉ tracks.map Track.id ∧ tracks.length < target then
      backfillLoop target moodAnalysis recentlyPlayed rest (tracks ++ [t])
        (recs ++ [mkBackfillRec t (tracks.length + 1) moodAnalysis recentlyPlayed])
    else
      backfillLoop target moodAnalysis recentlyPlayed rest tracks recs

/-- Steps 7 plus backfill (`generation.ts:391-486`): the ranked selection,
then — only when it is shorter than the target — the backfill pass over the
pool. -/
def buildFinalLists (trackMap : List (String × Track)) (target : ℕ)
    (moodAnalysis : MoodAnalysis) (recentlyPlayed : List String)
    (ranked : List RawRec) : List Track × List RawRec :=
  let s7 := step7Build trackMap recentlyPlayed ranked
  let tracks0 := s7.map Prod.fst
  let recs0 := s7.map Prod.snd
  if tracks0.length < target then
    backfillLoop target moodAnalysis recentlyPlayed (trackMap.map Prod.snd) tracks0 recs0
  else
    (tracks0, recs0)

/-- The final validation pass (`generation.ts:500-531`): `NaN`/missing
taste and mood scores are replaced by 75 and 80 *without clamping*; the
overall match is kept whenever it is a non-`NaN` number and otherwise
recomputed as the rounded average of the (defaulted) taste and mood
scores. -/
def validateRec (rec : RawRec) : RawRec :=
  let tasteScore := jsValidOr (rec.tasteAlignment.bind RawAlign.score) 75
  let moodScore := jsValidOr (rec.moodFit.bind RawMoodFit.score) 80
  let overallMatch :=
    if jsIsValidNumber rec.overallMatch then rec.overallMatch.getD JSNum.nan
    else jsRoundJ (jsHalf (jsAdd tasteScore moodScore))
  { rec with
    tasteAlignment := some {
      score := some tasteScore
      matchedArtists := some (listOr (rec.tasteAlignment.bind RawAlign.matchedArtists))
      matchedGenres := some (listOr (rec.tasteAlignment.bind RawAlign.matchedGenres))
      explanation := some (strOr (rec.tasteAlignment.bind RawAlign.explanation)
        "Matches your music style") }
    moodFit := some {
      score := some moodScore
      explanation := some (strOr (rec.moodFit.bind RawMoodFit.explanation)
        "Fits the requested vibe") }
    overallMatch := some overallMatch }

/-- The result record of a generation (`GenerationResult`,
`generation.ts:106-113`). -/
structure GenerationResult where
  tracks : List Track
  recommendations : List RawRec
  moodAnalysis : MoodAnalysis
  playlistDescription : String
  moodJourney : String
  generatedAt : String
  deriving DecidableEq

/-- `generatePlaylist` (`generation.ts:321-545`) with its awaited network
results as explicit inputs: `moodAnalysis` (step 1 output after the
adapter's fallback handling), `searchQueries` (from step 3's
recommendations), the catalog `search` oracle (step 4; `none` models a
per-query search failure), and `ranked` (step 6 output).  The preference
store is threaded explicitly; the returned store reflects the step 8
writes. -/
def generatePlaylist (prompt : String) (usePreferences : Bool)
    (moodAnalysis : MoodAnalysis) (searchQueries : List String)
    (search : String → Option (List Track)) (ranked : RankedPlaylist)
    (recentlyPlayed : List String) (nowIso : String) (store : PrefStore) :
    GenerationResult × PrefStore :=
  let preferences := if usePreferences then loadUserPreferences store
    else getDefaultPreferences
  let candidatesByQuery := (fetchCandidateTracksFromSpotify search searchQueries).1
  let trackMap := buildTrackMap candidatesByQuery
  let built := buildFinalLists trackMap preferences.playlistLength moodAnalysis
    recentlyPlayed ranked.tracks
  let finalTracks := built.1
  let finalRecommendations := built.2
  let store' :=
    if usePreferences ∧ 0 < finalTracks.length then
      let afterVibes := updateVibePreferences store moodAnalysis
        moodAnalysis.suggestedGenres
      some { loadUserPreferences afterVibes with
        lastPrompt := some prompt
        lastMoodAnalysis := some moodAnalysis
        lastGeneratedAt := some nowIso
        totalGenerations := preferences.totalGenerations + 1 }
    else store
  let validatedRecommendations := finalRecommendations.map validateRec
  ({ tracks := finalTracks
     recommendations := validatedRecommendations
     moodAnalysis := moodAnalysis
     playlistDescription := ranked.playlistDescription
     moodJourney := ranked.moodJourney
     generatedAt := nowIso }, store')

/-- The message of the distinct "no previous generation" error
(`generation.ts:556`). -/
def noPreviousGenerationError : String :=
  "No previous generation found. Please create a new playlist first."

/-- JS falsiness of a possibly-missing string: `!x` holds when the field
is absent or the empty string. -/
def isFalsyStr : Option String → Bool
  | none => true
  | some s => s = ""

/-- `regeneratePlaylist` (`generation.ts:550-561`): load the preferences;
if `lastPrompt` is falsy (`!preferences.lastPrompt` — absent or the empty
string) fail with the distinct error, otherwise re-invoke
`generatePlaylist` with the stored prompt and `usePreferences = true`.
The `getD ""` never applies in the live branch (the prompt is a present,
non-empty string there); the pipeline inputs are untouched in the error
branch. -/
def regeneratePlaylist (moodAnalysis : MoodAnalysis)
    (searchQueries : List String) (search : String → Option (List Track))
    (ranked : RankedPlaylist) (recentlyPlayed : List String) (nowIso : String)
    (store : PrefStore) : Except String (GenerationResult × PrefStore) :=
  let preferences := loadUserPreferences store
  if isFalsyStr preferences.lastPrompt then Except.error noPreviousGenerationError
  else
    Except.ok (generatePlaylist (preferences.lastPrompt.getD "") true moodAnalysis
      searchQueries search ranked recentlyPlayed nowIso store)

/-- The runtime shape of a parsed `moodConstraints` object (fields may be
absent; JSON cannot encode `NaN`/infinities, so present numbers are
rational). -/
structure MoodConstraintsJson where
  targetEnergy : Option ℚ
  targetValence : Option ℚ
  energyRange : Option (ℚ × ℚ)
  valenceRange : Option (ℚ × ℚ)
  deriving DecidableEq

/-- The runtime shape of a parsed `tasteConstraints` object. -/
structure TasteConstraintsJson where
  anchorArtists : Option (List String)
  anchorGenres : Option (List String)
  avoidGenres : Option (List String)
  deriving DecidableEq

/-- The runtime shape of a parsed `discoveryBalance` object. -/
structure DiscoveryBalanceJson where
  familiarPercent : Option ℚ
  discoveryPercent : Option ℚ
  deriving DecidableEq

/-- The runtime shape of a successfully JSON-parsed plan response. -/
structure PlanJson where
  intentSummary : Option String
  moodConstraints : Option MoodConstraintsJson
  tasteConstraints : Option TasteConstraintsJson
  discoveryBalance : Option DiscoveryBalanceJson
  rankingPriorities : Option (List String)
  deriving DecidableEq

/-- The fully-defaulted `MusicPlan` (`openai.ts` interface `MusicPlan`). -/
structure MusicPlan where
  intentSummary : String
  targetEnergy : ℚ
  targetValence : ℚ
  energyRange : ℚ × ℚ
  valenceRange : ℚ × ℚ
  anchorArtists : List String
  anchorGenres : List String
  avoidGenres : List String
  familiarPercent : ℚ
  discoveryPercent : ℚ
  rankingPriorities : List String
  deriving DecidableEq

/-- `safeParsePlanJSON` (`src/unnamed/part_002:613-657`): the argument is
the outcome of `JSON.parse` on the fence-stripped LLM content (`none` =
parse failure).  On failure the static fallback plan is returned; on
success each field is defaulted individually with `??` (and `||` for the
intent summary) — present values pass through unvalidated. -/
def safeParsePlanJSON (parsed : Option PlanJson) : MusicPlan :=
  match parsed with
  | some p =>
    { intentSummary := strOr p.intentSummary "Personalized music plan"
      targetEnergy := ((p.moodConstraints.bind MoodConstraintsJson.targetEnergy).getD (1 / 2))
      targetValence := ((p.moodConstraints.bind MoodConstraintsJson.targetValence).getD 0)
      energyRange := ((p.moodConstraints.bind MoodConstraintsJson.energyRange).getD (1 / 5, 4 / 5))
      valenceRange := ((p.moodConstraints.bind MoodConstraintsJson.valenceRange).getD (-2 / 5, 3 / 5))
      anchorArtists := ((p.tasteConstraints.bind TasteConstraintsJson.anchorArtists).getD [])
      anchorGenres := ((p.tasteConstraints.bind TasteConstraintsJson.anchorGenres).getD [])
      avoidGenres := ((p.tasteConstraints.bind TasteConstraintsJson.avoidGenres).getD [])
      familiarPercent := ((p.discoveryBalance.bind DiscoveryBalanceJson.familiarPercent).getD 60)
      discoveryPercent := ((p.discoveryBalance.bind DiscoveryBalanceJson.discoveryPercent).getD 40)
      rankingPriorities := (p.rankingPriorities.getD
        ["mood fit", "taste alignment", "discovery balance"]) }
  | none =>
    { intentSummary := "Personalized music plan"
      targetEnergy := 1 / 2
      targetValence := 0
      energyRange := (1 / 5, 4 / 5)
      valenceRange := (-2 / 5, 3 / 5)
      anchorArtists := []
      anchorGenres := []
      avoidGenres := []
      familiarPercent := 60
      discoveryPercent := 40
      rankingPriorities := ["mood fit", "taste alignment", "discovery balance"] }

/-- A parsed emotion point as it exists at runtime (fields may be absent). -/
structure EmotionPointJson where
  valence : Option ℚ
  energy : Option ℚ
  deriving DecidableEq

/-- The runtime shape of a successfully JSON-parsed mood-analysis
response: any field may be absent. -/
structure MoodJson where
  startPoint : Option EmotionPointJson
  endPoint : Option EmotionPointJson
  moodDescription : Option String
  reasoning : Option String
  suggestedGenres : Option (List String)
  playlistName : Option String
  shouldAskFollowUp : Option Bool
  followUpQuestion : Option String
  deriving DecidableEq

/-- The static fallback `MoodAnalysis` of `analyzeMoodFromChat`
(`src/unnamed/part_002:344-353`). -/
def moodAnalysisFallback : MoodJson where
  startPoint := some { valence := some 0, energy := some (1 / 2) }
  endPoint := some { valence := some 0, energy := some (1 / 2) }
  moodDescription := some "Unable to analyze"
  reasoning := some "Failed to parse response"
  suggestedGenres := some ["pop"]
  playlistName := some "Mixed Vibes"
  shouldAskFollowUp := some true
  followUpQuestion := some "Could you tell me more about how you're feeling?"

/-- The response handling of `analyzeMoodFromChat`
(`src/unnamed/part_002:336-355`): the argument is the outcome of
`JSON.parse` on the fence-stripped content (`none` = parse failure, caught
by the `catch`).  A parse failure yields the static fallback; a successful
parse is returned exactly as parsed, with no per-field validation. -/
def analyzeMoodFromChat (parsed : Option MoodJson) : MoodJson :=
  parsed.getD moodAnalysisFallback

/-- The claim's play-frequency rule, stated in the spec's words: 100 if the
track name appears case-insensitively as a substring of some recent-play
entry, otherwise 60 if some artist name so appears, otherwise 0. -/
def specPlayFrequency (trackName : String) (artistNames : List String)
    (recentlyPlayed : List String) : ℚ :=
  if recentlyPlayed.any (fun r => strIncludes r.toLower trackName.toLower) then 100
  else if recentlyPlayed.any
      (fun r => artistNames.any (fun a => strIncludes r.toLower a.toLower)) then 60
  else 0

/-- The claim's popularity sub-score, stated in the claim's words: the
catalog's popularity field, defaulting to 50 only when the field is
absent. -/
def specPopularityScore (p : Option ℕ) : ℚ :=
  match p with
  | none => 50
  | some n => (n : ℚ)

/-- The claim's time-of-day bucketing, stated in the claim's words:
[5,12) morning, [12,17) afternoon, [17,21) evening, night otherwise. -/
def claimTimeBucket (hour : ℕ) : String :=
  if 5 ≤ hour ∧ hour < 12 then "morning"
  else if 12 ≤ hour ∧ hour < 17 then "afternoon"
  else if 17 ≤ hour ∧ hour < 21 then "evening"
  else "night"

/-- The amended time-of-day bucketing: as the claim, but morning starts at
hour 6 and hour 5 belongs to night. -/
def amendedTimeBucket (hour : ℕ) : String :=
  if 6 ≤ hour ∧ hour < 12 then "morning"
  else if 12 ≤ hour ∧ hour < 17 then "afternoon"
  else if 17 ≤ hour ∧ hour < 21 then "evening"
  else "night"

/-- A possibly-missing JS number is a *finite* value in [0,100]. -/
def jsNumFinite01 : Option JSNum → Bool
  | some (JSNum.num q) => decide (0 ≤ q) && decide (q ≤ 100)
  | _ => false

/-- A recommendation record carries the three required scores — taste
alignment, mood fit and overall match — each present, finite and in
[0,100]. -/
def recHasValidScores (rec : RawRec) : Bool :=
  jsNumFinite01 (rec.tasteAlignment.bind RawAlign.score) &&
  jsNumFinite01 (rec.moodFit.bind RawMoodFit.score) &&
  jsNumFinite01 rec.overallMatch

/-- C7, counterexample: the claim puts hour 5 in the morning bucket
([5,12) = morning), but `getUserContext` assigns hour 5 to night, because
its night guard is `hour >= 21 || hour < 6`. -/
theorem c7_hour_five_counterexample :
    timeOfDay 5 = "night" ∧ claimTimeBucket 5 = "morning" ∧
    timeOfDay 5 ≠ claimTimeBucket 5 := by
  decide

/-- C7, amended: for every hour of day, the context builder assigns
morning on [6,12), afternoon on [12,17), evening on [17,21), and night
otherwise (in particular to hour 5). -/
theorem c7_time_of_day_buckets :
    ∀ h : Fin 24, timeOfDay h.val = amendedTimeBucket h.val := by
  decide

/-- C4, counterexample: when the LLM supplies discovery-balance
percentages, `safeParsePlanJSON` passes them through without enforcing the
sum; familiar 70 / discovery 70 yields a plan whose percentages sum to
140, not 100. -/
theorem c4_sum_counterexample :
    (safeParsePlanJSON (some
        { intentSummary := none, moodConstraints := none,
          tasteConstraints := none,
          discoveryBalance := some { familiarPercent := some 70, discoveryPercent := some 70 },
          rankingPriorities := none })).familiarPercent +
      (safeParsePlanJSON (some
        { intentSummary := none, moodConstraints := none,
          tasteConstraints := none,
          discoveryBalance := some { familiarPercent := some 70, discoveryPercent := some 70 },
          rankingPriorities := none })).discoveryPercent = 140 ∧
    (140 : ℚ) ≠ 100 := by
  refine ⟨?_, by norm_num⟩
  simp [safeParsePlanJSON]
  norm_num

/-- C4, amended: the discovery-balance percentages of a plan returned by
`safeParsePlanJSON` sum to 100 for the static fallback plan and whenever
the parsed LLM output omits the percentages (the defaults 60/40 apply);
percentages present in the parsed output are passed through unvalidated,
so their sum is not enforced. -/
theorem c4_discovery_balance_amended :
    ∀ (i : Option String) (mc : Option MoodConstraintsJson)
      (tc : Option TasteConstraintsJson) (rp : Option (List String)),
    ((safeParsePlanJSON none).familiarPercent +
        (safeParsePlanJSON none).discoveryPercent = 100) ∧
    ((safeParsePlanJSON (some
        { intentSummary := i, moodConstraints := mc, tasteConstraints := tc,
          discoveryBalance := none, rankingPriorities := rp })).familiarPercent +
      (safeParsePlanJSON (some
        { intentSummary := i, moodConstraints := mc, tasteConstraints := tc,
          discoveryBalance := none, rankingPriorities := rp })).discoveryPercent = 100) ∧
    ((safeParsePlanJSON (some
        { intentSummary := i, moodConstraints := mc, tasteConstraints := tc,
          discoveryBalance := some { familiarPercent := none, discoveryPercent := none },
          rankingPriorities := rp })).familiarPercent +
      (safeParsePlanJSON (some
        { intentSummary := i, moodConstraints := mc, tasteConstraints := tc,
          discoveryBalance := some { familiarPercent := none, discoveryPercent := none },
          rankingPriorities := rp })).discoveryPercent = 100) := by
  intro i mc tc rp
  refine ⟨by norm_num [safeParsePlanJSON], ?_, ?_⟩ <;>
    simp [safeParsePlanJSON] <;> norm_num

/-- C6, counterexample: a response that parses successfully but is missing
every field (for example the literal `{}` content) is returned as-is by
`analyzeMoodFromChat`, not replaced by the static fallback — contrary to
the claim that any missing field triggers the fallback. -/
theorem c6_missing_field_counterexample :
    analyzeMoodFromChat (some
        { startPoint := none, endPoint := none, moodDescription := none,
          reasoning := none, suggestedGenres := none, playlistName := none,
          shouldAskFollowUp := none, followUpQuestion := none }) ≠
      moodAnalysisFallback ∧
    (analyzeMoodFromChat (some
        { startPoint := none, endPoint := none, moodDescription := none,
          reasoning := none, suggestedGenres := none, playlistName := none,
          shouldAskFollowUp := none, followUpQuestion := none })).startPoint = none := by
  decide

/-- C6, amended: on any JSON parse failure `analyzeMoodFromChat` returns
the fully-specified static fallback (neutral start/end points with valence
0 and energy 0.5, a generic genre list, a generically named playlist, and
`shouldAskFollowUp = true` with a non-empty clarifying question) and never
propagates the parse error; a response that parses successfully is
returned exactly as parsed, even when fields are missing. -/
theorem c6_parse_failure_fallback :
    analyzeMoodFromChat none = moodAnalysisFallback ∧
    (∀ m : MoodJson, analyzeMoodFromChat (some m) = m) ∧
    moodAnalysisFallback.startPoint = some { valence := some 0, energy := some (1 / 2) } ∧
    moodAnalysisFallback.endPoint = some { valence := some 0, energy := some (1 / 2) } ∧
    moodAnalysisFallback.suggestedGenres = some ["pop"] ∧
    moodAnalysisFallback.playlistName = some "Mixed Vibes" ∧
    moodAnalysisFallback.shouldAskFollowUp = some true ∧
    (∃ q, moodAnalysisFallback.followUpQuestion = some q ∧ q ≠ "") := by
  refine ⟨rfl, fun m => rfl, rfl, rfl, rfl, rfl, rfl,
    ⟨"Could you tell me more about how you're feeling?", rfl, by decide⟩⟩

/-- C9, counterexample: the canonical
`fetchCandidateTracksFromSpotify` (`src/src/services/ai/generation.ts`)
performs no query filtering — a catalog search is issued for the empty
query, a whitespace-only query, and the `'Unknown Track'` placeholder. -/
theorem c9_no_filter_counterexample :
    "" ∈ (fetchCandidateTracksFromSpotify (fun _ => none) ["", "  ", "Unknown Track"]).2 ∧
    "  " ∈ (fetchCandidateTracksFromSpotify (fun _ => none) ["", "  ", "Unknown Track"]).2 ∧
    "Unknown Track" ∈ (fetchCandidateTracksFromSpotify (fun _ => none) ["", "  ", "Unknown Track"]).2 := by
  decide

/-- The alternate fetch loop only records the queries it is given. -/
theorem altFetchLoop_issued (search : String → Option (List Track)) :
    ∀ (qs : List String) (results : List (String × List Track)) (issued : List String),
      (AltGeneration.fetchLoop search qs results issued).2 = issued ++ qs := by
  intro qs
  induction qs with
  | nil => intro results issued; simp [AltGeneration.fetchLoop]
  | cons q rest ih =>
    intro results issued
    simp only [AltGeneration.fetchLoop]
    cases search q with
    | none => rw [ih]; simp
    | some items =>
      by_cases h : 0 < items.length <;> simp [h, ih]

/-- C9, amended: the alternate generation service's
`fetchCandidateTracksFromSpotify` (`src/unnamed/part_003`) filters out
empty, whitespace-only and `'Unknown Track'` placeholder queries before
searching: every issued catalog search uses a valid query.  The canonical
variant in `src/src/services/ai/generation.ts` performs no such filtering
and issues one search per input query. -/
theorem c9_alt_filters_queries :
    ∀ (search : String → Option (List Track)) (queries : List String),
      ((AltGeneration.fetchCandidateTracksFromSpotify search queries).2).all
        AltGeneration.isValidQuery = true := by
  intro search queries
  unfold AltGeneration.fetchCandidateTracksFromSpotify
  rw [altFetchLoop_issued]
  simp only [List.nil_append, List.all_eq_true]
  intro q hq
  exact (List.mem_filter.mp hq).2

/-- The taste-alignment score slot of a recommendation record
(`rec.tasteAlignment?.score`). -/
def tasteScoreOf (rec : RawRec) : Option JSNum :=
  rec.tasteAlignment.bind RawAlign.score

/-- The mood-fit score slot of a recommendation record
(`rec.moodFit?.score`). -/
def moodScoreOf (rec : RawRec) : Option JSNum :=
  rec.moodFit.bind RawMoodFit.score

/-- A recommendation record with taste score 150, mood score 60 and an
infinite stored overall match, as it can reach the final validation pass
in isolation. -/
def c8OutOfRangeRec : RawRec :=
  ⟨none, none, none, none, none, none, none,
    some ⟨some (JSNum.num 150), none, none, none⟩,
    some ⟨some (JSNum.num 60), none⟩, none, some JSNum.inf⟩

/-- The taste score emitted by the final validation pass is the unclamped
`jsValidOr` of the incoming taste score with default 75. -/
theorem validateRec_taste (rec : RawRec) :
    tasteScoreOf (validateRec rec) = some (jsValidOr (tasteScoreOf rec) 75) := rfl

/-- The mood score emitted by the final validation pass is the unclamped
`jsValidOr` of the incoming mood score with default 80. -/
theorem validateRec_mood (rec : RawRec) :
    moodScoreOf (validateRec rec) = some (jsValidOr (moodScoreOf rec) 80) := rfl

/-- The overall match emitted by the final validation pass: kept when it
passes the number test, otherwise the rounded average of the defaulted
taste and mood scores. -/
theorem validateRec_overall (rec : RawRec) :
    (validateRec rec).overallMatch = some
      (if jsIsValidNumber rec.overallMatch then rec.overallMatch.getD JSNum.nan
       else jsRoundJ (jsHalf (jsAdd (jsValidOr (tasteScoreOf rec) 75)
         (jsValidOr (moodScoreOf rec) 80)))) := rfl

/-- C8, counterexample: the final validation pass does not clamp — a
record with taste score 150 keeps score 150 (outside [0,100]) — and an
infinite (hence non-finite) stored overall match passes the
`typeof === 'number' && !isNaN` test and is kept rather than replaced. -/
theorem c8_no_clamp_counterexample :
    tasteScoreOf (validateRec c8OutOfRangeRec) = some (JSNum.num 150) ∧
    ¬ (150 : ℚ) ≤ 100 ∧
    (validateRec c8OutOfRangeRec).overallMatch = some JSNum.inf := by
  refine ⟨rfl, by norm_num, rfl⟩

/-- C8, amended: the final validation pass of `generatePlaylist` replaces
a missing or `NaN` taste score with 75 and a missing or `NaN` mood score
with 80, passing every other numeric score through *unclamped*; it keeps
the stored overall match whenever it is a non-`NaN` number (including
infinities) and only when it is missing or `NaN` recomputes it as
`round((tasteScore + moodScore) / 2)` from the defaulted scores.  This
holds for every record reaching the pass, independently of step 2's
weighted formula. -/
theorem c8_final_validation_pass :
    ∀ rec : RawRec,
    ((tasteScoreOf rec = none ∨ tasteScoreOf rec = some JSNum.nan) →
      tasteScoreOf (validateRec rec) = some (JSNum.num 75)) ∧
    (∀ v, tasteScoreOf rec = some v → v ≠ JSNum.nan →
      tasteScoreOf (validateRec rec) = some v) ∧
    ((moodScoreOf rec = none ∨ moodScoreOf rec = some JSNum.nan) →
      moodScoreOf (validateRec rec) = some (JSNum.num 80)) ∧
    (∀ v, moodScoreOf rec = some v → v ≠ JSNum.nan →
      moodScoreOf (validateRec rec) = some v) ∧
    (∀ v, rec.overallMatch = some v → v ≠ JSNum.nan →
      (validateRec rec).overallMatch = some v) ∧
    (∀ tq mq, tasteScoreOf (validateRec rec) = some (JSNum.num tq) →
      moodScoreOf (validateRec rec) = some (JSNum.num mq) →
      (rec.overallMatch = none ∨ rec.overallMatch = some JSNum.nan) →
      (validateRec rec).overallMatch =
        some (JSNum.num ((jsRound ((tq + mq) / 2) : ℤ) : ℚ))) := by
  intro rec
  refine ⟨?_, ?_, ?_, ?_, ?_, ?_⟩
  · rintro (h | h) <;> rw [validateRec_taste, h] <;> rfl
  · intro v hv hne
    rw [validateRec_taste, hv]
    cases v with
    | nan => exact absurd rfl hne
    | inf => rfl
    | ninf => rfl
    | num q => rfl
  · rintro (h | h) <;> rw [validateRec_mood, h] <;> rfl
  · intro v hv hne
    rw [validateRec_mood, hv]
    cases v with
    | nan => exact absurd rfl hne
    | inf => rfl
    | ninf => rfl
    | num q => rfl
  · intro v hv hne
    rw [validateRec_overall, hv]
    cases v with
    | nan => exact absurd rfl hne
    | inf => rfl
    | ninf => rfl
    | num q => rfl
  · intro tq mq htq hmq hmiss
    have ht' : jsValidOr (tasteScoreOf rec) 75 = JSNum.num tq := by
      rw [validateRec_taste] at htq
      exact Option.some.inj htq
    have hm' : jsValidOr (moodScoreOf rec) 80 = JSNum.num mq := by
      rw [validateRec_mood] at hmq
      exact Option.some.inj hmq
    have hov : jsIsValidNumber rec.overallMatch = false := by
      rcases hmiss with h | h <;> rw [h] <;> rfl
    rw [validateRec_overall, hov, ht', hm']
    simp [jsAdd, jsHalf, jsRoundJ]

/-- Concrete instance of `c8_final_validation_pass`: a record with a valid
taste score 120, a missing mood score and a missing overall match. -/
def c8SampleRec : RawRec :=
  ⟨none, none, none, none, none, none, none,
    some ⟨some (JSNum.num 120), none, none, none⟩, none, none, none⟩

/-- Witness for C8's amended theorem at `c8SampleRec`: the valid taste
score 120 passes through, the missing mood score becomes 80, and the
missing overall match becomes `round((120 + 80) / 2) = 100`. -/
theorem c8_final_validation_pass_witness :
    tasteScoreOf (validateRec c8SampleRec) = some (JSNum.num 120) ∧
    moodScoreOf (validateRec c8SampleRec) = some (JSNum.num 80) ∧
    (validateRec c8SampleRec).overallMatch =
      some (JSNum.num ((jsRound ((120 + 80) / 2) : ℤ) : ℚ)) := by
  have h := c8_final_validation_pass c8SampleRec
  have ht := h.2.1 (JSNum.num 120) rfl (by simp)
  have hm := h.2.2.1 (Or.inl rfl)
  exact ⟨ht, hm, h.2.2.2.2.2 120 80 ht hm (Or.inl rfl)⟩

/-- Characterization of the play-frequency loop: 100 as soon as some
recent-play entry contains the track name, otherwise the accumulator
raised to 60 when some entry contains an artist name, otherwise the
accumulator. -/
theorem playFreqLoop_eq (tn : String) (arts : List String) :
    ∀ (rs : List String) (acc : ℚ),
      playFreqLoop tn arts rs acc =
        if rs.any (fun r => strIncludes r.toLower tn) then 100
        else if rs.any (fun r => arts.any (fun a => strIncludes r.toLower a)) then
          max acc 60
        else acc := by
  intro rs
  induction rs with
  | nil => intro acc; simp [playFreqLoop]
  | cons r rest ih =>
    intro acc
    simp only [playFreqLoop, List.any_cons]
    by_cases h1 : strIncludes r.toLower tn = true
    · simp [h1]
    · simp only [h1, Bool.false_or, if_neg (by simp [h1] : ¬ strIncludes r.toLower tn = true)]
      rw [ih]
      by_cases h2 : arts.any (fun a => strIncludes r.toLower a) = true <;>
        by_cases h3 : rest.any (fun x => strIncludes x.toLower tn) = true <;>
        by_cases h4 : rest.any (fun x => arts.any fun a => strIncludes x.toLower a) = true <;>
        simp [h2, h3, h4, max_assoc]

/-- C2, amended: for a ranked (non-backfilled) track with the default
weights, the overall match equals
`round(taste*0.30 + mood*0.30 + popularityScore*0.25 + playFrequency*0.15)`
where `popularityScore` is the catalog popularity field defaulting to 50
when the field is *absent or equal to 0* (the call site uses JS `||`), and
`playFrequency` is 100 if the track name appears case-insensitively in
some recent-play entry, otherwise 60 if some artist name so appears,
otherwise 0. -/
theorem c2_overall_match_formula :
    ∀ (tasteScore moodScore : ℚ) (track : Track) (recentlyPlayed : List String),
      track.popularity.getD 0 ≤ 100 →
      calculateOverallMatch tasteScore moodScore (popularityOrFifty track.popularity)
          track.name track.artists recentlyPlayed =
        jsRound (tasteScore * (3 / 10) + moodScore * (3 / 10) +
          popularityOrFifty track.popularity * (1 / 4) +
          specPlayFrequency track.name track.artists recentlyPlayed * (3 / 20)) := by
  intro t m track rs hpop
  unfold calculateOverallMatch
  have hmin : min 100 (popularityOrFifty track.popularity) =
      popularityOrFifty track.popularity := by
    apply min_eq_right
    cases hp : track.popularity with
    | none => norm_num [popularityOrFifty]
    | some n =>
      cases n with
      | zero => norm_num [popularityOrFifty]
      | succ k =>
        rw [hp] at hpop
        simp only [Option.getD_some] at hpop
        simp only [popularityOrFifty]
        exact_mod_cast hpop
  have hpf : playFreqLoop track.name.toLower (track.artists.map String.toLower) rs 0 =
      specPlayFrequency track.name track.artists rs := by
    rw [playFreqLoop_eq]
    unfold specPlayFrequency
    simp only [List.any_map, Function.comp]
    have h60 : max (0 : ℚ) 60 = 60 := by norm_num
    rw [h60]
    rfl
  rw [hmin, hpf]
  rfl

/-- Witness for C2's amended theorem: a track with popularity 80 whose
artist appears in the recent-play window. -/
theorem c2_overall_match_formula_witness :
    (Track.mk "id1" "Song" ["Artist"] (some 80)).popularity.getD 0 ≤ 100 ∧
    calculateOverallMatch 90 85
        (popularityOrFifty (Track.mk "id1" "Song" ["Artist"] (some 80)).popularity)
        (Track.mk "id1" "Song" ["Artist"] (some 80)).name
        (Track.mk "id1" "Song" ["Artist"] (some 80)).artists ["waves by artist"] =
      jsRound (90 * (3 / 10) + 85 * (3 / 10) +
        popularityOrFifty (Track.mk "id1" "Song" ["Artist"] (some 80)).popularity * (1 / 4) +
        specPlayFrequency (Track.mk "id1" "Song" ["Artist"] (some 80)).name
          (Track.mk "id1" "Song" ["Artist"] (some 80)).artists ["waves by artist"] * (3 / 20)) :=
  ⟨by decide,
    c2_overall_match_formula 90 85 (Track.mk "id1" "Song" ["Artist"] (some 80))
      ["waves by artist"] (by decide)⟩

/-- C2, counterexample: for a track whose catalog popularity field is
present and equal to 0, the code computes with popularity 50 (JS `||`
treats 0 as falsy) and returns 13, while the claim's formula — popularity
defaults to 50 only when the field is absent — yields 0. -/
theorem c2_popularity_zero_counterexample :
    calculateOverallMatch 0 0 (popularityOrFifty (some 0)) "Song" ["Artist"] [] = 13 ∧
    jsRound (0 * (3 / 10) + 0 * (3 / 10) + specPopularityScore (some 0) * (1 / 4) +
      specPlayFrequency "Song" ["Artist"] [] * (3 / 20)) = 0 ∧
    (13 : ℤ) ≠ 0 := by
  refine ⟨?_, ?_, by decide⟩
  · unfold calculateOverallMatch popularityOrFifty playFreqLoop
    unfold tasteWeight moodWeight popularityWeight playFrequencyWeight jsRound
    norm_num
  · unfold specPopularityScore specPlayFrequency jsRound
    norm_num

/-- `Math.round` maps [0,100] into [0,100]. -/
theorem jsRound_bounds {x : ℚ} (h0 : 0 ≤ x) (h1 : x ≤ 100) :
    0 ≤ jsRound x ∧ jsRound x ≤ 100 := by
  unfold jsRound
  constructor
  · exact Int.le_floor.mpr (by push_cast; linarith)
  · have : (⌊x + 1 / 2⌋ : ℤ) ≤ ⌊(100 : ℚ) + 1 / 2⌋ := Int.floor_le_floor (by linarith)
    have h100 : (⌊(100 : ℚ) + 1 / 2⌋ : ℤ) = 100 := by norm_num
    omega

/-- The play-frequency score starting from accumulator 0 lies in [0,100]. -/
theorem playFreq_bounds (tn : String) (arts : List String) (rs : List String) :
    0 ≤ playFreqLoop tn arts rs 0 ∧ playFreqLoop tn arts rs 0 ≤ 100 := by
  rw [playFreqLoop_eq]
  split_ifs <;> norm_num

/-- `calculateOverallMatch` lies in [0,100] whenever the taste and mood
scores do and the popularity argument is non-negative. -/
theorem calculateOverallMatch_bounds {t m pop : ℚ}
    (ht0 : 0 ≤ t) (ht1 : t ≤ 100) (hm0 : 0 ≤ m) (hm1 : m ≤ 100) (hp0 : 0 ≤ pop)
    (trackName : String) (artistNames : List String) (recentlyPlayed : List String) :
    0 ≤ calculateOverallMatch t m pop trackName artistNames recentlyPlayed ∧
    calculateOverallMatch t m pop trackName artistNames recentlyPlayed ≤ 100 := by
  unfold calculateOverallMatch
  have hps0 : 0 ≤ min 100 pop := le_min (by norm_num) hp0
  have hps1 : min 100 pop ≤ 100 := min_le_left _ _
  have hpf := playFreq_bounds trackName.toLower (artistNames.map String.toLower) recentlyPlayed
  apply jsRound_bounds
  · unfold tasteWeight moodWeight popularityWeight playFrequencyWeight
    nlinarith [hpf.1, hpf.2]
  · unfold tasteWeight moodWeight popularityWeight playFrequencyWeight
    nlinarith [hpf.1, hpf.2]

/-- The clamp-or-default of step 7 lies in [0,100] when the default does. -/
theorem jsClampOr_bounds (x : Option JSNum) {d : ℚ} (hd0 : 0 ≤ d) (hd1 : d ≤ 100) :
    0 ≤ jsClampOr x d ∧ jsClampOr x d ≤ 100 := by
  match x with
  | none => exact ⟨hd0, hd1⟩
  | some JSNum.nan => exact ⟨hd0, hd1⟩
  | some JSNum.inf => norm_num [jsClampOr]
  | some JSNum.ninf => norm_num [jsClampOr]
  | some (JSNum.num q) =>
    refine ⟨le_max_left 0 _, ?_⟩
    simp only [jsClampOr]
    exact max_le (by norm_num) (le_trans (min_le_left _ _) (by norm_num))

/-- `jsNumFinite01` holds exactly for present finite values in [0,100]. -/
theorem jsNumFinite01_iff (x : Option JSNum) :
    jsNumFinite01 x = true ↔ ∃ q, x = some (JSNum.num q) ∧ 0 ≤ q ∧ q ≤ 100 := by
  match x with
  | none => simp [jsNumFinite01]
  | some JSNum.nan => simp [jsNumFinite01]
  | some JSNum.inf => simp [jsNumFinite01]
  | some JSNum.ninf => simp [jsNumFinite01]
  | some (JSNum.num q) => simp [jsNumFinite01]

/-- The JS-defaulted popularity argument is non-negative. -/
theorem popularityOrFifty_nonneg (p : Option ℕ) : 0 ≤ popularityOrFifty p := by
  cases p with
  | none => norm_num [popularityOrFifty]
  | some n => cases n with
    | zero => norm_num [popularityOrFifty]
    | succ k =>
      simp only [popularityOrFifty]
      exact Nat.cast_nonneg _

/-- The recommendation built for an LLM-ranked track carries three valid
scores. -/
theorem mkRankedRec_scores (rec : RawRec) (track : Track)
    (recentlyPlayed : List String) :
    recHasValidScores (mkRankedRec rec track recentlyPlayed) = true := by
  have hts := jsClampOr_bounds (rec.tasteAlignment.bind RawAlign.score)
    (by norm_num : (0:ℚ) ≤ 75) (by norm_num : (75:ℚ) ≤ 100)
  have hms := jsClampOr_bounds (rec.moodFit.bind RawMoodFit.score)
    (by norm_num : (0:ℚ) ≤ 80) (by norm_num : (80:ℚ) ≤ 100)
  have hov := calculateOverallMatch_bounds hts.1 hts.2 hms.1 hms.2
    (popularityOrFifty_nonneg track.popularity)
    track.name track.artists recentlyPlayed
  unfold recHasValidScores mkRankedRec
  simp only [Bool.and_eq_true]
  refine ⟨⟨?_, ?_⟩, ?_⟩
  · rw [jsNumFinite01_iff]
    exact ⟨_, rfl, hts.1, hts.2⟩
  · rw [jsNumFinite01_iff]
    exact ⟨_, rfl, hms.1, hms.2⟩
  · rw [jsNumFinite01_iff]
    refine ⟨_, rfl, ?_, ?_⟩
    · exact_mod_cast hov.1
    · exact_mod_cast hov.2

/-- The default recommendation attached to a backfilled track carries
three valid scores. -/
theorem mkBackfillRec_scores (track : Track) (position : ℕ)
    (moodAnalysis : MoodAnalysis) (recentlyPlayed : List String) :
    recHasValidScores (mkBackfillRec track position moodAnalysis recentlyPlayed) = true := by
  have hov := calculateOverallMatch_bounds
    (by norm_num : (0:ℚ) ≤ 70) (by norm_num : (70:ℚ) ≤ 100)
    (by norm_num : (0:ℚ) ≤ 75) (by norm_num : (75:ℚ) ≤ 100)
    (popularityOrFifty_nonneg track.popularity)
    track.name track.artists recentlyPlayed
  unfold recHasValidScores mkBackfillRec
  simp only [Bool.and_eq_true]
  refine ⟨⟨?_, ?_⟩, ?_⟩
  · rw [jsNumFinite01_iff]
    exact ⟨70, rfl, by norm_num, by norm_num⟩
  · rw [jsNumFinite01_iff]
    exact ⟨75, rfl, by norm_num, by norm_num⟩
  · rw [jsNumFinite01_iff]
    refine ⟨_, rfl, ?_, ?_⟩
    · exact_mod_cast hov.1
    · exact_mod_cast hov.2

/-- The final validation pass preserves validity of the three scores. -/
theorem validateRec_scores {rec : RawRec} (h : recHasValidScores rec = true) :
    recHasValidScores (validateRec rec) = true := by
  unfold recHasValidScores at h
  simp only [Bool.and_eq_true] at h
  obtain ⟨⟨hta, hmo⟩, hov⟩ := h
  rw [jsNumFinite01_iff] at hta hmo hov
  obtain ⟨tq, hta, hta0, hta1⟩ := hta
  obtain ⟨mq, hmo, hmo0, hmo1⟩ := hmo
  obtain ⟨oq, hov, hov0, hov1⟩ := hov
  unfold recHasValidScores
  simp only [Bool.and_eq_true]
  refine ⟨⟨?_, ?_⟩, ?_⟩
  · rw [show (validateRec rec).tasteAlignment.bind RawAlign.score =
        tasteScoreOf (validateRec rec) from rfl, validateRec_taste]
    rw [show rec.tasteAlignment.bind RawAlign.score = tasteScoreOf rec from rfl] at hta
    rw [hta, jsNumFinite01_iff]
    exact ⟨tq, rfl, hta0, hta1⟩
  · rw [show (validateRec rec).moodFit.bind RawMoodFit.score =
        moodScoreOf (validateRec rec) from rfl, validateRec_mood]
    rw [show rec.moodFit.bind RawMoodFit.score = moodScoreOf rec from rfl] at hmo
    rw [hmo, jsNumFinite01_iff]
    exact ⟨mq, rfl, hmo0, hmo1⟩
  · rw [validateRec_overall, hov, jsNumFinite01_iff]
    exact ⟨oq, by simp [jsIsValidNumber], hov0, hov1⟩

/-- Every recommendation produced by step 7's walk carries valid scores. -/
theorem step7Build_scores (trackMap : List (String × Track))
    (recentlyPlayed : List String) :
    ∀ (ranked : List RawRec) (p : Track × RawRec),
      p ∈ step7Build trackMap recentlyPlayed ranked →
      recHasValidScores p.2 = true := by
  intro ranked
  induction ranked with
  | nil => intro p hp; simp [step7Build] at hp
  | cons rec rest ih =>
    intro p hp
    unfold step7Build at hp
    cases hsel : selectedTrack trackMap rec with
    | none => rw [hsel] at hp; exact ih p hp
    | some track =>
      rw [hsel] at hp
      rcases List.mem_cons.mp hp with h | h
      · rw [h]
        exact mkRankedRec_scores rec track recentlyPlayed
      · exact ih p h

/-- The backfill loop only appends recommendations with valid scores. -/
theorem backfillLoop_scores (target : ℕ) (moodAnalysis : MoodAnalysis)
    (recentlyPlayed : List String) :
    ∀ (pool : List Track) (tracks : List Track) (recs : List RawRec),
      (∀ r ∈ recs, recHasValidScores r = true) →
      ∀ r ∈ (backfillLoop target moodAnalysis recentlyPlayed pool tracks recs).2,
        recHasValidScores r = true := by
  intro pool
  induction pool with
  | nil => intro tracks recs h r hr; simpa [backfillLoop] using h r (by simpa [backfillLoop] using hr)
  | cons t rest ih =>
    intro tracks recs h r hr
    unfold backfillLoop at hr
    by_cases hc : t.id ∉ tracks.map Track.id ∧ tracks.length < target
    · rw [if_pos hc] at hr
      refine ih _ _ ?_ r hr
      intro r' hr'
      rcases List.mem_append.mp hr' with h' | h'
      · exact h r' h'
      · rcases List.mem_singleton.mp h' with h''
        rw [h'']
        exact mkBackfillRec_scores t (tracks.length + 1) moodAnalysis recentlyPlayed
    · rw [if_neg hc] at hr
      exact ih _ _ h r hr

/-- C1, confirmed: every recommendation in the list returned by
`generatePlaylist` has a present, finite `tasteAlignment.score` in [0,100],
a present, finite `moodFit.score` in [0,100] and a present, finite
`overallMatch` in [0,100] — for every possible LLM ranking output
(including empty or partial records parsed from malformed JSON), every
catalog search outcome, every preference store state and every mood
analysis. -/
theorem c1_recommendation_scores_valid :
    ∀ (prompt : String) (usePreferences : Bool) (moodAnalysis : MoodAnalysis)
      (searchQueries : List String) (search : String → Option (List Track))
      (ranked : RankedPlaylist) (recentlyPlayed : List String) (nowIso : String)
      (store : PrefStore),
      ((generatePlaylist prompt usePreferences moodAnalysis searchQueries search
          ranked recentlyPlayed nowIso store).1.recommendations).all
        recHasValidScores = true := by
  intro prompt usePreferences moodAnalysis searchQueries search ranked recentlyPlayed
    nowIso store
  rw [List.all_eq_true]
  intro r hr
  have hr' : r ∈ (buildFinalLists
      (buildTrackMap (fetchCandidateTracksFromSpotify search searchQueries).1)
      (if usePreferences then loadUserPreferences store
        else getDefaultPreferences).playlistLength
      moodAnalysis recentlyPlayed ranked.tracks).2.map validateRec := hr
  obtain ⟨r0, hr0, hr0eq⟩ := List.mem_map.mp hr'
  rw [← hr0eq]
  apply validateRec_scores
  unfold buildFinalLists at hr0
  by_cases hlen : ((step7Build
      (buildTrackMap (fetchCandidateTracksFromSpotify search searchQueries).1)
      recentlyPlayed ranked.tracks).map Prod.fst).length <
      (if usePreferences then loadUserPreferences store
        else getDefaultPreferences).playlistLength
  · rw [if_pos hlen] at hr0
    refine backfillLoop_scores _ _ _ _ _ _ ?_ r0 hr0
    intro r' hr'
    obtain ⟨p, hp, hpe⟩ := List.mem_map.mp hr'
    rw [← hpe]
    exact step7Build_scores _ _ _ p hp
  · rw [if_neg hlen] at hr0
    obtain ⟨p, hp, hpe⟩ := List.mem_map.mp hr0
    rw [← hpe]
    exact step7Build_scores _ _ _ p hp

/-- Well-formedness of the step-7 track map: keys are pairwise distinct
and every entry is stored under its track's identifier. -/
def mapWF (m : List (String × Track)) : Prop :=
  (m.map Prod.fst).Nodup ∧ ∀ p ∈ m, p.2.id = p.1

/-- `mapSet` with a track under its own identifier preserves map
well-formedness. -/
theorem mapSet_WF {m : List (String × Track)} (hm : mapWF m) (v : Track) :
    mapWF (mapSet m v.id v) := by
  unfold mapSet
  by_cases h : m.any (fun p => p.1 = v.id) = true
  · rw [if_pos h]
    constructor
    · have : (m.map (fun p => if p.1 = v.id then (v.id, v) else p)).map Prod.fst =
          m.map Prod.fst := by
        rw [List.map_map]
        apply List.map_congr_left
        intro p _
        by_cases hp : p.1 = v.id <;> simp [hp]
      rw [List.map_map]
      rw [List.map_map] at this
      rw [this]
      exact hm.1
    · intro p hp
      obtain ⟨p0, hp0, hpe⟩ := List.mem_map.mp hp
      by_cases hp0k : p0.1 = v.id
      · rw [if_pos hp0k] at hpe
        rw [← hpe]
      · rw [if_neg hp0k] at hpe
        rw [← hpe]
        exact hm.2 p0 hp0
  · rw [if_neg h]
    constructor
    · rw [List.map_append]
      simp only [List.map_cons, List.map_nil]
      rw [List.nodup_append]
      refine ⟨hm.1, List.nodup_singleton _, ?_⟩
      intro x hx hx'
      rcases List.mem_singleton.mp hx' with rfl
      obtain ⟨p, hp, hpe⟩ := List.mem_map.mp hx
      have hnone : ∀ x : Track, (v.id, x) ∉ m := by
        simpa [List.any_eq_true] using h
      obtain ⟨a, b⟩ := p
      have ha : a = v.id := hpe
      subst ha
      exact hnone b hp
    · intro p hp
      rcases List.mem_append.mp hp with h' | h'
      · exact hm.2 p h'
      · rcases List.mem_singleton.mp h' with rfl
        rfl

/-- The inner fold of `buildTrackMap` preserves well-formedness. -/
theorem trackFold_WF :
    ∀ (ts : List Track) (m : List (String × Track)), mapWF m →
      mapWF (ts.foldl (fun m' t => mapSet m' t.id t) m) := by
  intro ts
  induction ts with
  | nil => intro m hm; exact hm
  | cons t rest ih =>
    intro m hm
    exact ih _ (mapSet_WF hm t)

/-- The step-7 track map is well-formed for every search outcome. -/
theorem buildTrackMap_WF (candidatesByQuery : List (String × List Track)) :
    mapWF (buildTrackMap candidatesByQuery) := by
  unfold buildTrackMap
  have base : mapWF ([] : List (String × Track)) := ⟨List.nodup_nil, by intro p hp; cases hp⟩
  generalize ([] : List (String × Track)) = m at base ⊢
  induction candidatesByQuery generalizing m with
  | nil => exact base
  | cons p rest ih =>
    simp only [List.foldl_cons]
    exact ih _ (trackFold_WF p.2 m base)

/-- A successful `mapGet` on a well-formed map returns a stored track whose
identifier is the queried key. -/
theorem mapGet_WF {m : List (String × Track)} (hm : mapWF m) {k : String} {t : Track}
    (h : mapGet m k = some t) : t.id = k ∧ t ∈ m.map Prod.snd := by
  unfold mapGet at h
  cases hf : m.find? (fun p => p.1 = k) with
  | none => rw [hf] at h; cases h
  | some p =>
    rw [hf] at h
    have hpt : p.2 = t := Option.some.inj h
    subst hpt
    have hmem := List.mem_of_find?_eq_some hf
    have hkey : p.1 = k := by simpa using List.find?_some hf
    exact ⟨(hm.2 p hmem).trans hkey, List.mem_map.mpr ⟨p, hmem, rfl⟩⟩

/-- Every track selected by step 7 belongs to the pool, with its identifier
among the map keys. -/
theorem selectedTrack_WF {m : List (String × Track)} (hm : mapWF m) {rec : RawRec}
    {t : Track} (h : selectedTrack m rec = some t) :
    t.id ∈ m.map Prod.fst ∧ t ∈ m.map Prod.snd := by
  unfold selectedTrack at h
  cases hsid : rec.spotifyId with
  | none => rw [hsid] at h; cases h
  | some sid =>
    rw [hsid] at h
    have h' : (if sid = "" then none else mapGet m sid) = some t := h
    by_cases hne : sid = ""
    · rw [if_pos hne] at h'; cases h'
    · rw [if_neg hne] at h'
      obtain ⟨hid, hmem⟩ := mapGet_WF hm h'
      refine ⟨?_, hmem⟩
      obtain ⟨p', hp', hpe'⟩ := List.mem_map.mp hmem
      subst hpe'
      rw [hm.2 p' hp']
      exact List.mem_map.mpr ⟨p', hp', rfl⟩

/-- Step 7's selected tracks all come from the pool: their identifiers are
map keys. -/
theorem step7Build_ids_sub {m : List (String × Track)} (hm : mapWF m)
    (recentlyPlayed : List String) :
    ∀ (ranked : List RawRec) (x : String),
      x ∈ (step7Build m recentlyPlayed ranked).map (fun p => p.1.id) →
      x ∈ m.map Prod.fst := by
  intro ranked
  induction ranked with
  | nil => intro x hx; simp [step7Build] at hx
  | cons rec rest ih =>
    intro x hx
    unfold step7Build at hx
    cases hsel : selectedTrack m rec with
    | none => rw [hsel] at hx; exact ih x hx
    | some t =>
      rw [hsel] at hx
      simp only [List.map_cons, List.mem_cons] at hx
      rcases hx with rfl | hx
      · exact (selectedTrack_WF hm hsel).1
      · exact ih x hx

/-- Counting distinct leftovers: for duplicate-free `L` and `S` with
`S ⊆ L`, the elements of `L` outside `S` number `L.length - S.length`. -/
theorem nodup_filter_not_mem_length :
    ∀ (L S : List String), L.Nodup → S.Nodup → (∀ s ∈ S, s ∈ L) →
      (L.filter (fun x => decide (x ∉ S))).length + S.length = L.length := by
  intro L
  induction L with
  | nil =>
    intro S _ _ hsub
    have : S = [] := List.eq_nil_iff_forall_not_mem.mpr (fun s hs => by simpa using hsub s hs)
    subst this
    simp
  | cons a L ih =>
    intro S hL hS hsub
    have haL : a ∉ L := (List.nodup_cons.mp hL).1
    have hL' : L.Nodup := (List.nodup_cons.mp hL).2
    by_cases ha : a ∈ S
    · have hfa : (a :: L).filter (fun x => decide (x ∉ S)) =
          L.filter (fun x => decide (x ∉ S)) := by
        simp [List.filter_cons, ha]
      have hS' : (S.erase a).Nodup := hS.erase a
      have hsub' : ∀ s ∈ S.erase a, s ∈ L := by
        intro s hs
        obtain ⟨hne, hmem⟩ := (hS.mem_erase_iff).mp hs
        rcases List.mem_cons.mp (hsub s hmem) with h' | h'
        · exact absurd h' hne
        · exact h'
      have hfe : L.filter (fun x => decide (x ∉ S)) =
          L.filter (fun x => decide (x ∉ S.erase a)) := by
        apply List.filter_congr
        intro x hx
        have hxa : x ≠ a := fun h => haL (h ▸ hx)
        simp only [decide_eq_decide]
        rw [hS.mem_erase_iff]
        simp [hxa]
      have hlen : (S.erase a).length + 1 = S.length := by
        rw [List.length_erase_of_mem ha]
        have : 1 ≤ S.length := List.length_pos.mpr (fun h => by subst h; cases ha)
        omega
      have := ih (S.erase a) hL' hS' hsub'
      rw [hfa, hfe]
      simp only [List.length_cons]
      omega
    · have hfa : (a :: L).filter (fun x => decide (x ∉ S)) =
          a :: L.filter (fun x => decide (x ∉ S)) := by
        simp [List.filter_cons, ha]
      have hsub' : ∀ s ∈ S, s ∈ L := by
        intro s hs
        rcases List.mem_cons.mp (hsub s hs) with h' | h'
        · subst h'; exact absurd hs ha
        · exact h'
      have := ih S hL' hS hsub'
      rw [hfa]
      simp only [List.length_cons]
      omega

/-- Filtering tracks by a predicate on their identifiers has the same
count as filtering the identifier list. -/
theorem filter_by_id_length (q : String → Bool) :
    ∀ P : List Track,
      (P.filter (fun t => q t.id)).length = ((P.map Track.id).filter q).length := by
  intro P
  induction P with
  | nil => simp
  | cons t rest ih =>
    by_cases h : q t.id = true <;> simp [List.filter_cons, h, ih]

/-- Specification of the backfill loop: it preserves distinctness of the
playlist identifiers and brings the playlist length to the target, capped
by the number of pool tracks whose identifier is still unused. -/
theorem backfillLoop_spec (target : ℕ) (moodAnalysis : MoodAnalysis)
    (recentlyPlayed : List String) :
    ∀ (P T : List Track) (R : List RawRec),
      (T.map Track.id).Nodup → T.length ≤ target → (P.map Track.id).Nodup →
      ((backfillLoop target moodAnalysis recentlyPlayed P T R).1.map Track.id).Nodup ∧
      (backfillLoop target moodAnalysis recentlyPlayed P T R).1.length =
        min target (T.length +
          (P.filter (fun t => decide (t.id ∉ T.map Track.id))).length) := by
  intro P
  induction P with
  | nil =>
    intro T R hT hTle _
    simp only [backfillLoop, List.filter_nil, List.length_nil, Nat.add_zero]
    exact ⟨hT, (Nat.min_eq_right hTle).symm⟩
  | cons t rest ih =>
    intro T R hT hTle hP
    have htr : t.id ∉ rest.map Track.id := (List.nodup_cons.mp hP).1
    have hrest : (rest.map Track.id).Nodup := (List.nodup_cons.mp hP).2
    unfold backfillLoop
    by_cases hc : t.id ∉ T.map Track.id ∧ T.length < target
    · rw [if_pos hc]
      have hT' : ((T ++ [t]).map Track.id).Nodup := by
        rw [List.map_append]
        simp only [List.map_cons, List.map_nil]
        rw [List.nodup_append]
        refine ⟨hT, List.nodup_singleton _, ?_⟩
        intro x hx hx'
        rcases List.mem_singleton.mp hx' with rfl
        exact hc.1 hx
      have hT'le : (T ++ [t]).length ≤ target := by
        simp only [List.length_append, List.length_cons, List.length_nil]
        omega
      obtain ⟨hnodup, hlen⟩ := ih (T ++ [t]) _ hT' hT'le hrest
      refine ⟨hnodup, ?_⟩
      rw [hlen]
      have hfe : rest.filter (fun x => decide (x.id ∉ (T ++ [t]).map Track.id)) =
          rest.filter (fun x => decide (x.id ∉ T.map Track.id)) := by
        apply List.filter_congr
        intro x hx
        have hxt : x.id ≠ t.id := by
          intro h
          exact htr (h ▸ List.mem_map.mpr ⟨x, hx, rfl⟩)
        simp only [decide_eq_decide, List.map_append, List.map_cons, List.map_nil,
          List.mem_append, List.mem_singleton]
        constructor
        · intro h h'
          exact h (Or.inl h')
        · intro h h'
          rcases h' with h' | h'
          · exact h h'
          · exact hxt h'
      rw [hfe]
      have hkeep : (t :: rest).filter (fun x => decide (x.id ∉ T.map Track.id)) =
          t :: rest.filter (fun x => decide (x.id ∉ T.map Track.id)) := by
        rw [List.filter_cons, if_pos (decide_eq_true hc.1)]
      rw [hkeep]
      simp only [List.length_append, List.length_cons, List.length_nil]
      omega
    · rw [if_neg hc]
      obtain ⟨hnodup, hlen⟩ := ih T R hT hTle hrest
      refine ⟨hnodup, ?_⟩
      rw [hlen]
      by_cases hmem : t.id ∉ T.map Track.id
      · have htl : T.length = target := by
          rcases Decidable.not_and_iff_or_not.mp hc with h | h
          · exact absurd hmem h
          · omega
        have hkeep : (t :: rest).filter (fun x => decide (x.id ∉ T.map Track.id)) =
            t :: rest.filter (fun x => decide (x.id ∉ T.map Track.id)) := by
          rw [List.filter_cons, if_pos (decide_eq_true hmem)]
        rw [hkeep]
        simp only [List.length_cons]
        omega
      · have hdrop : (t :: rest).filter (fun x => decide (x.id ∉ T.map Track.id)) =
            rest.filter (fun x => decide (x.id ∉ T.map Track.id)) := by
          have hd : decide (t.id ∉ T.map Track.id) = false :=
            decide_eq_false hmem
          rw [List.filter_cons, hd]
          simp
        rw [hdrop]

/-- On a well-formed map, the identifiers of the stored tracks are exactly
the keys. -/
theorem mapWF_snd_ids {m : List (String × Track)} (hm : mapWF m) :
    (m.map Prod.snd).map Track.id = m.map Prod.fst := by
  rw [List.map_map]
  apply List.map_congr_left
  intro p hp
  exact hm.2 p hp

/-- C3, amended: whenever the LLM ranking resolves fewer tracks than the
target playlist length *and the resolved identifiers are pairwise
distinct*, the backfill step yields a final track list of exactly the
target length with no duplicate identifiers provided the deduplicated
candidate pool holds at least the target number of distinct identifiers;
when the distinct pool is smaller than the target, the final list has
exactly the pool's size (shorter than the target, with distinct
identifiers) and no error is raised.  (The distinctness proviso is
necessary: a ranking that repeats an identifier produces duplicates, see
the counterexample.) -/
theorem c3_backfill_length :
    ∀ (prompt : String) (usePreferences : Bool) (moodAnalysis : MoodAnalysis)
      (searchQueries : List String) (search : String → Option (List Track))
      (ranked : RankedPlaylist) (recentlyPlayed : List String) (nowIso : String)
      (store : PrefStore),
    let trackMap := buildTrackMap (fetchCandidateTracksFromSpotify search searchQueries).1
    let target := (if usePreferences then loadUserPreferences store
      else getDefaultPreferences).playlistLength
    let matched := step7Build trackMap recentlyPlayed ranked.tracks
    let result := (generatePlaylist prompt usePreferences moodAnalysis searchQueries
      search ranked recentlyPlayed nowIso store).1
    (matched.map (fun p => p.1.id)).Nodup →
    matched.length < target →
    ((target ≤ trackMap.length →
        result.tracks.length = target ∧ (result.tracks.map Track.id).Nodup) ∧
     (trackMap.length < target →
        result.tracks.length = trackMap.length ∧ (result.tracks.map Track.id).Nodup)) := by
  intro prompt usePreferences moodAnalysis searchQueries search ranked recentlyPlayed
    nowIso store
  intro trackMap target matched result hnodup hless
  have hWF : mapWF trackMap := buildTrackMap_WF _
  have htr0 : ((matched.map Prod.fst).map Track.id).Nodup := by
    rw [List.map_map]
    exact hnodup
  have hlen0 : (matched.map Prod.fst).length = matched.length := List.length_map _ _
  have hpool : ((trackMap.map Prod.snd).map Track.id).Nodup := by
    rw [mapWF_snd_ids hWF]
    exact hWF.1
  have htracks : result.tracks =
      (backfillLoop target moodAnalysis recentlyPlayed (trackMap.map Prod.snd)
        (matched.map Prod.fst) (matched.map Prod.snd)).1 := by
    show (buildFinalLists trackMap target moodAnalysis recentlyPlayed ranked.tracks).1 = _
    unfold buildFinalLists
    rw [if_pos]
    rw [hlen0]
    exact hless
  obtain ⟨hnodupRes, hlenRes⟩ := backfillLoop_spec target moodAnalysis recentlyPlayed
    (trackMap.map Prod.snd) (matched.map Prod.fst) (matched.map Prod.snd) htr0
    (by rw [hlen0]; exact Nat.le_of_lt hless) hpool
  have hcount : ((trackMap.map Prod.snd).filter
        (fun t => decide (t.id ∉ (matched.map Prod.fst).map Track.id))).length +
      ((matched.map Prod.fst).map Track.id).length = trackMap.length := by
    have hfb := filter_by_id_length
      (fun x => decide (x ∉ (matched.map Prod.fst).map Track.id)) (trackMap.map Prod.snd)
    rw [hfb, mapWF_snd_ids hWF]
    have hsub : ∀ s ∈ (matched.map Prod.fst).map Track.id, s ∈ trackMap.map Prod.fst := by
      intro s hs
      rw [List.map_map] at hs
      exact step7Build_ids_sub hWF recentlyPlayed ranked.tracks s hs
    have hmain := nodup_filter_not_mem_length (trackMap.map Prod.fst)
      ((matched.map Prod.fst).map Track.id) hWF.1 htr0 hsub
    rw [hmain]
    exact List.length_map _ _
  have hlenEq : result.tracks.length = min target trackMap.length := by
    rw [htracks, hlenRes]
    have hS : ((matched.map Prod.fst).map Track.id).length = (matched.map Prod.fst).length :=
      List.length_map _ _
    congr 1
    omega
  constructor
  · intro hge
    refine ⟨?_, by rw [htracks]; exact hnodupRes⟩
    rw [hlenEq]
    exact Nat.min_eq_left hge
  · intro hlt
    refine ⟨?_, by rw [htracks]; exact hnodupRes⟩
    rw [hlenEq]
    exact Nat.min_eq_right (Nat.le_of_lt hlt)

/-- A sample mood analysis for concrete evaluations. -/
def sampleMood : MoodAnalysis :=
  ⟨⟨0, 1 / 2⟩, ⟨0, 1 / 2⟩, "chill", "fits the evening", ["pop"], "Evening Mix",
    false, none⟩

/-- Sample catalog track `a`. -/
def trackA : Track := ⟨"a", "Alpha", ["ArtA"], some 50⟩

/-- Sample catalog track `b`. -/
def trackB : Track := ⟨"b", "Beta", ["ArtB"], some 60⟩

/-- Sample catalog track `c`. -/
def trackC : Track := ⟨"c", "Gamma", ["ArtC"], none⟩

/-- A sample catalog search oracle: the query `q1` returns three distinct
tracks, everything else fails. -/
def sampleSearch : String → Option (List Track) :=
  fun q => if q = "q1" then some [trackA, trackB, trackC] else none

/-- A minimal LLM ranking entry that resolves the given identifier. -/
def rankedRecFor (sid : String) : RawRec :=
  ⟨some sid, none, none, none, none, none, none, none, none, none, none⟩

/-- A preference store whose playlist length is 3. -/
def sampleStore3 : PrefStore :=
  some { getDefaultPreferences with playlistLength := 3 }

/-- A ranking that resolves only track `a`. -/
def sampleRanked1 : RankedPlaylist := ⟨[rankedRecFor "a"], "d", "j"⟩

/-- A ranking that resolves track `a` twice. -/
def sampleRanked2 : RankedPlaylist := ⟨[rankedRecFor "a", rankedRecFor "a"], "d", "j"⟩

/-- Witness for C3's amended theorem: pool {a,b,c}, target 3, one distinct
ranked match — the backfilled playlist has exactly 3 tracks with distinct
identifiers. -/
theorem c3_backfill_length_witness :
    (generatePlaylist "p" true sampleMood ["q1"] sampleSearch sampleRanked1 []
        "t0" sampleStore3).1.tracks.length = 3 ∧
    ((generatePlaylist "p" true sampleMood ["q1"] sampleSearch sampleRanked1 []
        "t0" sampleStore3).1.tracks.map Track.id).Nodup :=
  (c3_backfill_length "p" true sampleMood ["q1"] sampleSearch sampleRanked1 []
    "t0" sampleStore3 (by decide) (by decide)).1 (by decide)

/-- C3, counterexample: with the pool {a,b,c} (3 distinct identifiers ≥
target 3) and an LLM ranking that resolves fewer matches than the target
but repeats identifier `a`, the final list reaches the target length yet
contains `a` twice — the claim's "no duplicate track identifiers" fails. -/
theorem c3_duplicate_ranking_counterexample :
    (loadUserPreferences sampleStore3).playlistLength = 3 ∧
    3 ≤ (buildTrackMap (fetchCandidateTracksFromSpotify sampleSearch ["q1"]).1).length ∧
    (step7Build (buildTrackMap (fetchCandidateTracksFromSpotify sampleSearch ["q1"]).1)
      [] sampleRanked2.tracks).length < 3 ∧
    (generatePlaylist "p" true sampleMood ["q1"] sampleSearch sampleRanked2 []
        "t0" sampleStore3).1.tracks.length = 3 ∧
    ¬ ((generatePlaylist "p" true sampleMood ["q1"] sampleSearch sampleRanked2 []
        "t0" sampleStore3).1.tracks.map Track.id).Nodup := by
  refine ⟨rfl, by decide, by decide, by decide, by decide⟩

/-- On a successful generation with preferences enabled, the store ends up
holding the vibe-updated record stamped with the prompt, the mood analysis,
the timestamp and the bumped generation counter. -/
theorem generatePlaylist_store_of_success
    (prompt : String) (moodAnalysis : MoodAnalysis) (searchQueries : List String)
    (search : String → Option (List Track)) (ranked : RankedPlaylist)
    (recentlyPlayed : List String) (nowIso : String) (store : PrefStore)
    (h : 0 < (generatePlaylist prompt true moodAnalysis searchQueries search ranked
      recentlyPlayed nowIso store).1.tracks.length) :
    (generatePlaylist prompt true moodAnalysis searchQueries search ranked
        recentlyPlayed nowIso store).2 =
      some { loadUserPreferences
          (updateVibePreferences store moodAnalysis moodAnalysis.suggestedGenres) with
        lastPrompt := some prompt
        lastMoodAnalysis := some moodAnalysis
        lastGeneratedAt := some nowIso
        totalGenerations := (loadUserPreferences store).totalGenerations + 1 } := by
  have h' : True ∧ 0 < (buildFinalLists
      (buildTrackMap (fetchCandidateTracksFromSpotify search searchQueries).1)
      (if True then loadUserPreferences store else getDefaultPreferences).playlistLength
      moodAnalysis recentlyPlayed ranked.tracks).1.length := ⟨trivial, h⟩
  simp only [generatePlaylist]
  rw [if_pos h']
  rfl

/-- When preferences are disabled or the final track list is empty, the
store is returned untouched. -/
theorem generatePlaylist_store_of_skip
    (prompt : String) (usePreferences : Bool) (moodAnalysis : MoodAnalysis)
    (searchQueries : List String) (search : String → Option (List Track))
    (ranked : RankedPlaylist) (recentlyPlayed : List String) (nowIso : String)
    (store : PrefStore)
    (h : ¬((usePreferences = true) ∧
      0 < (generatePlaylist prompt usePreferences moodAnalysis searchQueries search
        ranked recentlyPlayed nowIso store).1.tracks.length)) :
    (generatePlaylist prompt usePreferences moodAnalysis searchQueries search ranked
      recentlyPlayed nowIso store).2 = store := by
  have h' : ¬((usePreferences = true) ∧ 0 < (buildFinalLists
      (buildTrackMap (fetchCandidateTracksFromSpotify search searchQueries).1)
      (if usePreferences then loadUserPreferences store
        else getDefaultPreferences).playlistLength
      moodAnalysis recentlyPlayed ranked.tracks).1.length) := h
  simp only [generatePlaylist]
  rw [if_neg h']

/-- C5, amended: with no stored prompt — or a stored *empty* prompt, which
JS falsiness treats identically — `regeneratePlaylist` fails with the
distinct "no previous generation" error regardless of every pipeline
input (the pipeline is not invoked); when a *non-empty* prompt `p` is
stored, it re-invokes `generatePlaylist` with exactly `p` and preferences
enabled; in particular after a successful `generatePlaylist(p, _, true)`
with non-empty `p` and a non-empty track list, regeneration re-invokes
`generatePlaylist` with exactly the stored `p`. -/
theorem c5_regenerate_behavior :
    ∀ (mood1 : MoodAnalysis) (queries1 : List String)
      (search1 : String → Option (List Track)) (ranked1 : RankedPlaylist)
      (recents1 : List String) (now1 : String) (store : PrefStore),
    (((loadUserPreferences store).lastPrompt = none ∨
        (loadUserPreferences store).lastPrompt = some "") →
      regeneratePlaylist mood1 queries1 search1 ranked1 recents1 now1 store =
        Except.error noPreviousGenerationError) ∧
    (∀ p : String, p ≠ "" → (loadUserPreferences store).lastPrompt = some p →
      regeneratePlaylist mood1 queries1 search1 ranked1 recents1 now1 store =
        Except.ok (generatePlaylist p true mood1 queries1 search1 ranked1
          recents1 now1 store)) ∧
    (∀ (prompt : String) (mood0 : MoodAnalysis) (queries0 : List String)
        (search0 : String → Option (List Track)) (ranked0 : RankedPlaylist)
        (recents0 : List String) (now0 : String),
      prompt ≠ "" →
      0 < (generatePlaylist prompt true mood0 queries0 search0 ranked0 recents0
          now0 store).1.tracks.length →
      regeneratePlaylist mood1 queries1 search1 ranked1 recents1 now1
          ((generatePlaylist prompt true mood0 queries0 search0 ranked0 recents0
            now0 store).2) =
        Except.ok (generatePlaylist prompt true mood1 queries1 search1 ranked1
          recents1 now1
          ((generatePlaylist prompt true mood0 queries0 search0 ranked0 recents0
            now0 store).2))) := by
  intro mood1 queries1 search1 ranked1 recents1 now1 store
  have hok : ∀ (st : PrefStore) (p : String), p ≠ "" →
      (loadUserPreferences st).lastPrompt = some p →
      regeneratePlaylist mood1 queries1 search1 ranked1 recents1 now1 st =
        Except.ok (generatePlaylist p true mood1 queries1 search1 ranked1
          recents1 now1 st) := by
    intro st p hp hsp
    have hf : isFalsyStr (loadUserPreferences st).lastPrompt = false := by
      rw [hsp]
      simp [isFalsyStr, hp]
    simp only [regeneratePlaylist]
    rw [hf]
    simp only [Bool.false_eq_true, if_false]
    rw [hsp]
    rfl
  refine ⟨?_, hok store, ?_⟩
  · intro h
    have hf : isFalsyStr (loadUserPreferences store).lastPrompt = true := by
      rcases h with h | h <;> rw [h] <;> rfl
    simp only [regeneratePlaylist]
    rw [hf]
    rw [if_pos rfl]
  · intro prompt mood0 queries0 search0 ranked0 recents0 now0 hp hlen
    have hs := generatePlaylist_store_of_success prompt mood0 queries0 search0
      ranked0 recents0 now0 store hlen
    have hsp : (loadUserPreferences ((generatePlaylist prompt true mood0 queries0
        search0 ranked0 recents0 now0 store).2)).lastPrompt = some prompt := by
      rw [hs]
      rfl
    exact hok _ prompt hp hsp

/-- Witness for C5's amended theorem: a successful generation with the
prompt "late night chill" stores it, and regeneration re-invokes the
pipeline with exactly that prompt. -/
theorem c5_regenerate_behavior_witness :
    regeneratePlaylist sampleMood ["q1"] sampleSearch sampleRanked1 [] "t1"
        ((generatePlaylist "late night chill" true sampleMood ["q1"] sampleSearch
          sampleRanked1 [] "t0" none).2) =
      Except.ok (generatePlaylist "late night chill" true sampleMood ["q1"]
        sampleSearch sampleRanked1 [] "t1"
        ((generatePlaylist "late night chill" true sampleMood ["q1"] sampleSearch
          sampleRanked1 [] "t0" none).2)) :=
  (c5_regenerate_behavior sampleMood ["q1"] sampleSearch sampleRanked1 [] "t1"
    none).2.2 "late night chill" sampleMood ["q1"] sampleSearch sampleRanked1 []
    "t0" (by decide) (by decide)

/-- C5, counterexample: a successful `generatePlaylist("", _, true)` call
(non-empty track list) stores the empty prompt, yet `regeneratePlaylist`
then fails with the "no previous generation" error instead of re-invoking
the pipeline with the stored prompt — JS falsiness conflates a stored
empty prompt with no stored prompt. -/
theorem c5_empty_prompt_counterexample :
    0 < (generatePlaylist "" true sampleMood ["q1"] sampleSearch sampleRanked1 []
        "t0" none).1.tracks.length ∧
    (loadUserPreferences ((generatePlaylist "" true sampleMood ["q1"] sampleSearch
        sampleRanked1 [] "t0" none).2)).lastPrompt = some "" ∧
    regeneratePlaylist sampleMood ["q1"] sampleSearch sampleRanked1 [] "t1"
        ((generatePlaylist "" true sampleMood ["q1"] sampleSearch sampleRanked1 []
          "t0" none).2) =
      Except.error noPreviousGenerationError := by
  refine ⟨by decide, ?_, ?_⟩
  · rw [generatePlaylist_store_of_success "" sampleMood ["q1"] sampleSearch
      sampleRanked1 [] "t0" none (by decide)]
    rfl
  · have hsp : (loadUserPreferences ((generatePlaylist "" true sampleMood ["q1"]
        sampleSearch sampleRanked1 [] "t0" none).2)).lastPrompt = some "" := by
      rw [generatePlaylist_store_of_success "" sampleMood ["q1"] sampleSearch
        sampleRanked1 [] "t0" none (by decide)]
      rfl
    have hf : isFalsyStr (loadUserPreferences ((generatePlaylist "" true sampleMood
        ["q1"] sampleSearch sampleRanked1 [] "t0" none).2)).lastPrompt = true := by
      rw [hsp]
      rfl
    simp only [regeneratePlaylist]
    rw [hf]
    rw [if_pos rfl]

/-- C10, confirmed: the preference store is written by `generatePlaylist`
exactly when `usePreferences` is true and the final track list is
non-empty; otherwise (preferences disabled, or a successful generation
with zero tracks) the store is returned completely unchanged.  When the
write happens, the stored record carries the prompt, the mood analysis,
the timestamp, the incremented generation counter, the 0.7/0.3-blended
clamped energy/valence scalars and the updated vibe and genre lists. -/
theorem c10_preference_store_frame :
    ∀ (prompt : String) (usePreferences : Bool) (moodAnalysis : MoodAnalysis)
      (searchQueries : List String) (search : String → Option (List Track))
      (ranked : RankedPlaylist) (recentlyPlayed : List String) (nowIso : String)
      (store : PrefStore),
    (((generatePlaylist prompt usePreferences moodAnalysis searchQueries search
        ranked recentlyPlayed nowIso store).2 = store) ↔
      ¬(usePreferences = true ∧
        0 < (generatePlaylist prompt usePreferences moodAnalysis searchQueries
          search ranked recentlyPlayed nowIso store).1.tracks.length)) ∧
    (usePreferences = true →
      0 < (generatePlaylist prompt usePreferences moodAnalysis searchQueries search
        ranked recentlyPlayed nowIso store).1.tracks.length →
      ∃ p', (generatePlaylist prompt usePreferences moodAnalysis searchQueries
          search ranked recentlyPlayed nowIso store).2 = some p' ∧
        p'.lastPrompt = some prompt ∧
        p'.lastMoodAnalysis = some moodAnalysis ∧
        p'.lastGeneratedAt = some nowIso ∧
        p'.totalGenerations = (loadUserPreferences store).totalGenerations + 1 ∧
        p'.energyPreference = max 0 (min 1
          ((loadUserPreferences store).energyPreference * (7 / 10) +
            moodAnalysis.endPoint.energy * (3 / 10))) ∧
        p'.valencePreference = max (-1) (min 1
          ((loadUserPreferences store).valencePreference * (7 / 10) +
            moodAnalysis.endPoint.valence * (3 / 10))) ∧
        p'.favoriteGenres = (jsSetDedup (moodAnalysis.suggestedGenres ++
          (loadUserPreferences store).favoriteGenres)).take maxFavoriteGenres ∧
        p'.preferredVibes = (if moodAnalysis.moodDescription ∈
            (loadUserPreferences store).preferredVibes then
          (loadUserPreferences store).preferredVibes
        else
          sliceLast ((loadUserPreferences store).preferredVibes ++
            [moodAnalysis.moodDescription]) maxSavedVibes)) := by
  intro prompt usePreferences moodAnalysis searchQueries search ranked recentlyPlayed
    nowIso store
  by_cases hu : usePreferences = true
  · subst hu
    by_cases hl : 0 < (generatePlaylist prompt true moodAnalysis searchQueries search
        ranked recentlyPlayed nowIso store).1.tracks.length
    · have hs := generatePlaylist_store_of_success prompt moodAnalysis searchQueries
        search ranked recentlyPlayed nowIso store hl
      constructor
      · constructor
        · intro heq
          exfalso
          rw [hs] at heq
          cases hst : store with
          | none => rw [hst] at heq; cases heq
          | some prefs =>
            rw [hst] at heq
            have hR := Option.some.inj heq
            have hcontra : prefs.totalGenerations + 1 = prefs.totalGenerations :=
              congrArg UserGenerationPreferences.totalGenerations hR
            omega
        · intro hn
          exact absurd ⟨rfl, hl⟩ hn
      · intro _ _
        refine ⟨_, hs, rfl, rfl, rfl, rfl, ?_, ?_, ?_, ?_⟩ <;>
          simp [loadUserPreferences, updateVibePreferences]
    · have hs := generatePlaylist_store_of_skip prompt true moodAnalysis searchQueries
        search ranked recentlyPlayed nowIso store (fun hc => hl hc.2)
      exact ⟨⟨fun _ => fun hc => hl hc.2, fun _ => hs⟩, fun _ hl' => absurd hl' hl⟩
  · have hs := generatePlaylist_store_of_skip prompt usePreferences moodAnalysis
      searchQueries search ranked recentlyPlayed nowIso store (fun hc => hu hc.1)
    exact ⟨⟨fun _ => fun hc => hu hc.1, fun _ => hs⟩, fun h1 => absurd h1 hu⟩

/-- Witness for C10 at a concrete successful generation: the store changes
and carries the stored prompt. -/
theorem c10_preference_store_frame_witness :
    (¬ ((generatePlaylist "evening jazz" true sampleMood ["q1"] sampleSearch
        sampleRanked1 [] "t0" none).2 = none)) ∧
    (∃ p', (generatePlaylist "evening jazz" true sampleMood ["q1"] sampleSearch
        sampleRanked1 [] "t0" none).2 = some p' ∧
      p'.lastPrompt = some "evening jazz" ∧
      p'.lastMoodAnalysis = some sampleMood ∧
      p'.lastGeneratedAt = some "t0" ∧
      p'.totalGenerations = (loadUserPreferences none).totalGenerations + 1 ∧
      p'.energyPreference = max 0 (min 1
        ((loadUserPreferences none).energyPreference * (7 / 10) +
          sampleMood.endPoint.energy * (3 / 10))) ∧
      p'.valencePreference = max (-1) (min 1
        ((loadUserPreferences none).valencePreference * (7 / 10) +
          sampleMood.endPoint.valence * (3 / 10))) ∧
      p'.favoriteGenres = (jsSetDedup (sampleMood.suggestedGenres ++
        (loadUserPreferences none).favoriteGenres)).take maxFavoriteGenres ∧
      p'.preferredVibes = (if sampleMood.moodDescription ∈
          (loadUserPreferences none).preferredVibes then
        (loadUserPreferences none).preferredVibes
      else
        sliceLast ((loadUserPreferences none).preferredVibes ++
          [sampleMood.moodDescription]) maxSavedVibes)) := by
  have h := c10_preference_store_frame "evening jazz" true sampleMood ["q1"]
    sampleSearch sampleRanked1 [] "t0" none
  have hl : 0 < (generatePlaylist "evening jazz" true sampleMood ["q1"] sampleSearch
      sampleRanked1 [] "t0" none).1.tracks.length := by decide
  refine ⟨?_, h.2 rfl hl⟩
  intro heq
  exact (h.1.mp heq) ⟨rfl, hl⟩

end SpotifyAI
